import Mathlib

/-!
Verification development for the ztraveler itinerary builder.

The Python sources are shallowly embedded:
* money and prices are rationals (`ℚ`); Python `round(x, 2)` is `round2`;
* Python dicts produced by the normalizing retrievers
  (`app/rag/retrievers.py`) are records carrying exactly the keys the
  retrievers emit;
* the storage / embedding / narrative backends are parameters (`Env`),
  since the code treats them as opaque collaborators;
* Python sets of used identifiers are `List String` used only through
  membership and insertion;
* `random.seed(day_number); random.shuffle(pool)` is an opaque function
  `shuffle : ℕ → List PoolDoc → List PoolDoc` (deterministic in the day
  number, exactly like the seeded Mersenne twister).
-/

set_option maxRecDepth 16000

namespace ZTraveler

/-- Models Python `round(x, 2)` on currency values: round to two decimal
places (round-half-up on exact rationals, an idealization of the float
round-half-even; on two-decimal inputs — all currency data in the
repository — both are the identity, the only regime the claims
exercise). `Rat.floor` keeps the definition kernel-computable. -/
def round2 (q : ℚ) : ℚ := (((q * 100 + 1/2).floor : ℤ) : ℚ) / 100

/-- A rational is representable with two decimal places; on such values
`round2` is the identity. -/
def TwoDec (q : ℚ) : Prop := round2 q = q

instance (q : ℚ) : Decidable (TwoDec q) :=
  inferInstanceAs (Decidable (_ = _))

/-- Python string truthiness for `d.get(key) or ...` chains: a missing key
or an empty string falls through to the next alternative. -/
def pyStrOpt (s : Option String) : Option String :=
  match s with
  | some t => if t = "" then none else some t
  | none => none

/-- One step of a running first-minimum: keep the earlier element on
ties (Python `min` and stable `sorted(...)[0]` both return the first
element attaining the minimal key). -/
def minStep {α : Type} (f : α → ℚ) (acc : Option α) (x : α) : Option α :=
  match acc with
  | none => some x
  | some b => if f x < f b then some x else some b

/-- Models Python `min(xs, key=f, default=None)` (and `sorted(xs, key=f)[0]`):
the first element attaining the minimal key, `none` on the empty list. -/
def firstMinBy {α : Type} (f : α → ℚ) (l : List α) : Option α :=
  l.foldl (minStep f) none

/- ------------------------------------------------------------------
Data model, from app/models/itinerary_models.py (pydantic models).
------------------------------------------------------------------ -/

/-- Input model `TravelerPrefs` (app/models/itinerary_models.py and
app/schemas/itinerary_schema.py; the router schema requires `origin`).
Dates are modelled as day ordinals, so `(end_date - start_date).days`
is plain integer subtraction. -/
structure TravelerPrefs where
  origin : String
  destination : List String
  start_date : ℤ
  end_date : ℤ
  budget_total : ℚ
  interests : List String
  traveler_type : String
deriving DecidableEq

/-- Pydantic `Hotel` model. -/
structure Hotel where
  id : String
  name : String
  city : String
  price_per_night : ℚ
  rating : ℚ
  address : Option String
  source : String
deriving DecidableEq

/-- Pydantic `Activity` model. -/
structure Activity where
  id : String
  name : String
  city : String
  category : String
  entry_fee : ℚ
  duration_min : ℕ
  opening_hours : Option String
  best_time_hint : String
  source : String
deriving DecidableEq

/-- Pydantic `TransportSegment` model. -/
structure TransportSegment where
  mode : String
  provider : String
  from_place : String
  to_place : String
  price : ℚ
deriving DecidableEq

/-- Pydantic `FlightSegment` model. -/
structure FlightSegment where
  airline : String
  from_city : String
  to_city : String
  price : ℚ
  duration_minutes : ℤ
deriving DecidableEq

/-- Pydantic `DayPlan` model. -/
structure DayPlan where
  day_index : ℕ
  city : String
  hotel : Option Hotel
  activities : List Activity
  transport_segments : List TransportSegment
  flight : Option FlightSegment
  notes : String
  estimated_day_cost : ℚ
deriving DecidableEq

/-- Pydantic `TripCost` model. -/
structure TripCost where
  hotel_total : ℚ
  activities_total : ℚ
  transport_total : ℚ
  flights_total : ℚ
  total : ℚ
deriving DecidableEq

/-- Pydantic `Itinerary` model. -/
structure Itinerary where
  trip_id : String
  summary_text : String
  highlights : List String
  days : List DayPlan
  cost : TripCost
  assumptions : List String
deriving DecidableEq

/- ------------------------------------------------------------------
Normalized inventory records, exactly the dict shapes produced by the
retrieval helpers in app/rag/retrievers.py (every listed key is always
set by the corresponding list comprehension there).
------------------------------------------------------------------ -/

/-- A dict produced by `retrieve_hotels`. -/
structure HotelDoc where
  id : String
  hotelId : Option String
  hotelName : String
  cityName : String
  price : ℚ
  rating : ℚ
  source : String
deriving DecidableEq

/-- A dict produced by `retrieve_attractions` (`duration_min` is the
constant 120 there, so it is omitted). `category` may be `None`. -/
structure AttrDoc where
  id : String
  name : String
  cityName : String
  category : Option String
  entry_fee : ℚ
  rating : ℚ
  source : String
deriving DecidableEq

/-- A dict produced by `retrieve_events`; event dicts carry no
`entry_fee` and no `price` key, and their kind is under key `type`
(modelled as `typ`). -/
structure EventDoc where
  id : String
  name : String
  cityName : String
  typ : Option String
  date : String
  source : String
deriving DecidableEq

/-- A dict produced by `retrieve_transports`. -/
structure TransportDoc where
  id : String
  mode : String
  provider : String
  from_city : String
  to_city : String
  price : ℚ
  source : String
deriving DecidableEq

/-- A dict produced by `retrieve_flights`. The duration is under key
`duration` (not `duration_minutes`). Keys `from` and `to` are modelled
as `fromCity` and `toCity`. -/
structure FlightDoc where
  id : String
  airline : String
  flight_number : String
  fromCity : String
  toCity : String
  price : ℚ
  duration : ℤ
  source : String
deriving DecidableEq

/- ------------------------------------------------------------------
Budget allocator, from app/planner/budget_splitter.py.
------------------------------------------------------------------ -/

/-- `split_budget` (app/planner/budget_splitter.py lines 3-23).
Python `not total_budget or total_budget <= 0` on a float is
`total_budget = 0 ∨ total_budget ≤ 0`. The float literals 0.6, 0.25,
0.15 are the exact rationals here. -/
def split_budget (total_budget : ℚ) : TripCost :=
  let b := if total_budget = 0 ∨ total_budget ≤ 0 then 1000 else total_budget
  { hotel_total := round2 (b * (6/10))
    activities_total := round2 (b * (25/100))
    transport_total := round2 (b * (15/100))
    flights_total := 0
    total := round2 b }

/- ------------------------------------------------------------------
Hotel selector, from app/planner/rule_based_planner.py lines 8-44.
------------------------------------------------------------------ -/

/-- The sort key of `pick_hotel`: Python `sorted(hotels, key=lambda h:
(-h.get("rating", 0), h.get("price", 999999)))`, i.e. descending rating
then ascending price (both keys always present on retriever dicts). -/
def hotelSortLE (a b : HotelDoc) : Prop :=
  b.rating < a.rating ∨ (a.rating = b.rating ∧ a.price ≤ b.price)

instance : DecidableRel hotelSortLE :=
  fun _a _b => inferInstanceAs (Decidable (_ ∨ _))

/-- The stable ascending sort used by `pick_hotel` (Python `sorted` is a
stable sort; a stable insertion sort on the same key produces the same
list). -/
def sortHotels (hotels : List HotelDoc) : List HotelDoc :=
  hotels.insertionSort hotelSortLE

/-- Construction of the `Hotel` model from a retriever dict inside
`pick_hotel`: `id=h.get("hotelId") or h.get("id")` (Python `or`, so an
absent or empty `hotelId` falls back to `id`); `address` is absent on
retriever dicts, hence `none`. -/
def mkHotel (d : HotelDoc) : Hotel :=
  { id := (pyStrOpt d.hotelId).getD d.id
    name := d.hotelName
    city := d.cityName
    price_per_night := d.price
    rating := d.rating
    address := none
    source := d.source }

/-- `pick_hotel` (app/planner/rule_based_planner.py lines 8-44): sort by
descending rating then ascending price, return the first candidate with
`price * nights <= hotel_budget`; otherwise the cheapest of the sorted
list (`min` returns the first element attaining the minimal price);
`None` on an empty candidate list. -/
def pick_hotel (hotels : List HotelDoc) (nights : ℕ) (hotel_budget : ℚ) :
    Option Hotel :=
  if hotels = [] then none
  else
    let hotels_sorted := sortHotels hotels
    match hotels_sorted.find? (fun h => h.price * (nights : ℚ) ≤ hotel_budget) with
    | some h => some (mkHotel h)
    | none =>
      match firstMinBy (fun h => h.price) hotels_sorted with
      | some cheapest => some (mkHotel cheapest)
      | none => none

/- ------------------------------------------------------------------
Daily activity selector, from app/services/itinerary_service.py
lines 29-87 (pick_unique_activities).
------------------------------------------------------------------ -/

/-- An element of the candidate pool of `pick_unique_activities`: the
pool concatenates attraction dicts and event dicts. -/
inductive PoolDoc where
  | attr (a : AttrDoc)
  | event (e : EventDoc)
deriving DecidableEq

/-- Key `id` of a pool dict (already a string on retriever dicts, so
Python `str(doc.get("id"))` is the identity). -/
def PoolDoc.docId : PoolDoc → String
  | .attr a => a.id
  | .event e => e.id

/-- Python `doc.get("category") or doc.get("type") or "general"`:
attraction dicts carry `category` (possibly `None`) and no `type` key;
event dicts carry `type` (possibly `None`) and no `category` key. -/
def PoolDoc.category : PoolDoc → String
  | .attr a => (pyStrOpt a.category).getD "general"
  | .event e => (pyStrOpt e.typ).getD "general"

/-- Python `float(doc.get("entry_fee", 0) or doc.get("price", 0) or 0)`:
attraction dicts carry `entry_fee` and no `price` key (a zero fee falls
through the `or` chain to the final 0, which is the same value); event
dicts carry neither key, so their fee is 0. -/
def PoolDoc.fee : PoolDoc → ℚ
  | .attr a => a.entry_fee
  | .event _ => 0

/-- Key `name` of a pool dict. -/
def PoolDoc.docName : PoolDoc → String
  | .attr a => a.name
  | .event e => e.name

/-- Key `cityName` of a pool dict. -/
def PoolDoc.city : PoolDoc → String
  | .attr a => a.cityName
  | .event e => e.cityName

/-- Key `source` of a pool dict. -/
def PoolDoc.src : PoolDoc → String
  | .attr a => a.source
  | .event e => e.source

/-- The `Activity` model built inside the selection loop of
`pick_unique_activities`: retriever pool dicts carry no `opening_hours`
key (so `None`) and no `best_time_hint` key (so the default "Morning");
`duration_min` defaults apply as in the source (attraction dicts carry
the constant 120, event dicts fall back to the same default 120). -/
def mkActivity (d : PoolDoc) : Activity :=
  { id := d.docId
    name := d.docName
    city := d.city
    category := d.category
    entry_fee := d.fee
    duration_min := 120
    opening_hours := none
    best_time_hint := "Morning"
    source := d.src }

/-- The greedy scan of `pick_unique_activities` (lines 55-87): skip
already-used ids, skip duplicate categories and over-budget candidates,
otherwise pick; stop once the slot count is reached. The accumulators
mirror the Python locals `picked`, `total`, `categories`, and the
mutable `used_ids` set. -/
def pickLoop (daily_budget : ℚ) (slots : ℕ) :
    List PoolDoc → List Activity → ℚ → List String → List String →
    List Activity × List String
  | [], picked, _, _, used => (picked, used)
  | d :: rest, picked, total, cats, used =>
    if d.docId ∈ used then
      pickLoop daily_budget slots rest picked total cats used
    else if d.category ∈ cats ∨ total + d.fee > daily_budget then
      pickLoop daily_budget slots rest picked total cats used
    else
      let picked1 := picked ++ [mkActivity d]
      let used1 := d.docId :: used
      if slots ≤ picked1.length then (picked1, used1)
      else
        pickLoop daily_budget slots rest picked1 (total + d.fee)
          (d.category :: cats) used1

/-- `pick_unique_activities` (app/services/itinerary_service.py lines
29-87). `shuffle` stands for `random.seed(day_number);
random.shuffle(pool)`. The mutated `used_ids` set is returned alongside
the picks. -/
def pick_unique_activities (shuffle : ℕ → List PoolDoc → List PoolDoc)
    (attr_docs : List AttrDoc) (event_docs : List EventDoc)
    (daily_budget : ℚ) (day_number : ℕ) (used_ids : List String)
    (slots : ℕ := 3) : List Activity × List String :=
  let pool := attr_docs.map PoolDoc.attr ++ event_docs.map PoolDoc.event
  if pool = [] then ([], used_ids)
  else pickLoop daily_budget slots (shuffle day_number pool) [] 0 [] used_ids

/- ------------------------------------------------------------------
Route planning, from app/rag/retrievers.py build_itinerary
(lines 188-401): the entry route (lines 209-262), the inter-city route
(lines 289-338) and the return route (lines 341-393). The entry and
return blocks run the same algorithm, so one function models both.
------------------------------------------------------------------ -/

/-- Python `sorted(flights, key=lambda f: f.get("price", 999999))[0]` and
`min(flights, key=...)`: the first flight attaining the minimal price
(`none` exactly on an empty list, matching the `if flights:` guards). -/
def cheapestFlight (flights : List FlightDoc) : Option FlightDoc :=
  firstMinBy (fun f => f.price) flights

/-- A `FlightSegment` built from a retriever flight dict in the route
blocks of app/rag/retrievers.py (all keys present, duration under key
`duration`). -/
def mkSeg (f : FlightDoc) : FlightSegment :=
  { airline := f.airline
    from_city := f.fromCity
    to_city := f.toCity
    price := f.price
    duration_minutes := f.duration }

/-- The hub scan of the entry/return route (retrievers.py lines 229-240
and 361-372): take the first hub for which both legs have at least one
flight, each leg cheapest-selected. -/
def hubScan (flights : String → String → List FlightDoc)
    (a b : String) : List String → List FlightSegment
  | [] => []
  | hub :: rest =>
    match cheapestFlight (flights a hub), cheapestFlight (flights hub b) with
    | some f1, some f2 => [mkSeg f1, mkSeg f2]
    | _, _ => hubScan flights a b rest

/-- The hub scan of the inter-city route (retrievers.py lines 308-321):
identical to `hubScan` except that a hub equal (case-insensitively) to
either endpoint is skipped. -/
def hubScanSkip (flights : String → String → List FlightDoc)
    (a b : String) : List String → List FlightSegment
  | [] => []
  | hub :: rest =>
    if hub.toLower = a.toLower ∨ hub.toLower = b.toLower then
      hubScanSkip flights a b rest
    else
      match cheapestFlight (flights a hub), cheapestFlight (flights hub b) with
      | some f1, some f2 => [mkSeg f1, mkSeg f2]
      | _, _ => hubScanSkip flights a b rest

/-- The entry/return route resolution of retrievers.build_itinerary
(lines 209-251 and 345-383): direct flight if any (cheapest), else the
first hub in `["Dubai", "Doha", "Abu Dhabi"]` with both legs available,
else a synthetic "Fallback Route" segment priced 1800 with duration
420. -/
def plan_entry_route (flights : String → String → List FlightDoc)
    (a b : String) : List FlightSegment :=
  match cheapestFlight (flights a b) with
  | some best => [mkSeg best]
  | none =>
    let segs := hubScan flights a b ["Dubai", "Doha", "Abu Dhabi"]
    if segs = [] then
      [{ airline := "Fallback Route", from_city := a, to_city := b,
         price := 1800, duration_minutes := 420 }]
    else segs

/-- The inter-city route resolution of retrievers.build_itinerary
(lines 292-326): direct flight if any (cheapest), else the first hub in
`["Riyadh", "Jeddah", "Dammam"]` not equal to an endpoint with both
legs available, else a synthetic "Road Route" segment priced 300 with
duration 360. -/
def plan_hop_route (flights : String → String → List FlightDoc)
    (a b : String) : List FlightSegment :=
  match cheapestFlight (flights a b) with
  | some best => [mkSeg best]
  | none =>
    let segs := hubScanSkip flights a b ["Riyadh", "Jeddah", "Dammam"]
    if segs = [] then
      [{ airline := "Road Route", from_city := a, to_city := b,
         price := 300, duration_minutes := 360 }]
    else segs

/- ------------------------------------------------------------------
Core service build_itinerary, from app/services/itinerary_service.py
lines 93-302.
------------------------------------------------------------------ -/

/-- The dict returned by `generate_ai_itinerary_narrative`; the service
reads the keys `summary_text`, `highlights` and `ai_commentary` with
defaults, so each is optional. -/
structure NarrOut where
  summaryText : Option String
  highlights : Option (List String)
  aiCommentary : Option String

/-- The collaborators of the service-layer build, all opaque to it: the
five retrieval helpers (modelled as pure functions — retrieval failure
is treated separately for claim C3), the seeded shuffle, the narrative
generator (`Except.error` models a raised exception, caught by the
service), and the generated uuid suffix of the trip id. `events` takes
the two trip dates (passed as their iso strings in the source). -/
structure Env where
  hotels : String → ℚ → ℕ → List HotelDoc
  attractions : String → List String → ℕ → List AttrDoc
  events : String → ℤ → ℤ → ℕ → List EventDoc
  transports : String → ℕ → List TransportDoc
  flights : String → String → List FlightDoc
  shuffle : ℕ → List PoolDoc → List PoolDoc
  narrative : Except String NarrOut
  tripUuid : String

/-- The mutable locals of `build_itinerary` threaded through the city
loop: `all_days`, `current_day_index`, `used_activity_ids` and the four
running totals. -/
structure BuildState where
  allDays : List DayPlan
  currentDayIndex : ℕ
  usedActivityIds : List String
  hotelTotal : ℚ
  activitiesTotal : ℚ
  transportTotal : ℚ
  flightsTotal : ℚ
deriving DecidableEq

/-- A local transport segment built from the selected cheapest transport
dict (service lines 149-166). -/
def mkTransportSeg (bt : TransportDoc) (fromPlace toPlace : String) :
    TransportSegment :=
  { mode := bt.mode
    provider := bt.provider
    from_place := fromPlace
    to_place := toPlace
    price := bt.price }

/-- The hotel → activity → ... → activity chain of local transport
segments (service lines 146-157); returns the segments together with
the name of the last visited place. -/
def chainSegs (bt : TransportDoc) (prev : String) :
    List Activity → List TransportSegment × String
  | [] => ([], prev)
  | a :: rest =>
    let (segs, last) := chainSegs bt a.name rest
    (mkTransportSeg bt prev a.name :: segs, last)

/-- Local transport for one day (service lines 144-166): present only
when a transport option and at least one activity exist; chains
hotel → activities → hotel. -/
def localChain (bt : TransportDoc) (hotelName : String)
    (acts : List Activity) : List TransportSegment :=
  match acts with
  | [] => []
  | _ :: _ =>
    let (segs, last) := chainSegs bt hotelName acts
    segs ++ [mkTransportSeg bt last hotelName]

/-- One iteration of the per-city day loop of `build_itinerary`
(service lines 139-201): pick the day's activities against the daily
cap and the running used-set, build the local transport chain (only
when a transport option and at least one activity exist), attach the
inbound flight segment plus an airport transfer exactly when the global
day index is 1, and assemble the `DayPlan` (hotel and its rounded
nightly rate only when the loop variable `_` — here `i` — is 0).
Returns the day plan together with the updated used-identifier set. -/
def buildDayPlan (env : Env) (city : String) (hotel : Hotel)
    (bt : Option TransportDoc) (bi : Option FlightDoc)
    (attrDocs : List AttrDoc) (eventDocs : List EventDoc)
    (dailyBudget : ℚ) (dayIndex : ℕ) (used : List String) (i : ℕ) :
    DayPlan × List String :=
  let pr := pick_unique_activities env.shuffle attrDocs eventDocs
    dailyBudget dayIndex used 3
  let acts := pr.1
  let segs0 : List TransportSegment :=
    match bt, acts with
    | some b, _ :: _ => localChain b hotel.name acts
    | _, _ => []
  let fs : Option FlightSegment × List TransportSegment :=
    match bi with
    | some f =>
      if dayIndex = 1 then
        (some { airline := f.airline, from_city := f.fromCity,
                to_city := f.toCity, price := f.price,
                duration_minutes := 0 },
         { mode := "car", provider := "Airport Transfer",
           from_place := f.toCity ++ " Airport", to_place := hotel.name,
           price := match bt with | some b => b.price | none => 100 }
           :: segs0)
      else (none, segs0)
    | none => (none, segs0)
  ({ day_index := dayIndex
     city := city
     hotel := if i = 0 then some hotel else none
     activities := acts
     transport_segments := fs.2
     flight := fs.1
     notes := "Auto-generated day in " ++ city ++ "."
     estimated_day_cost :=
       round2 (if i = 0 then hotel.price_per_night else 0) }, pr.2)

/-- The per-city day loop of `build_itinerary` (service lines 139-202):
`fuel` counts the remaining iterations of `for _ in range(city_days)`
and `i` is the value of the loop variable `_`. Returns the final state
and the value of the loop-local `acts` after the last iteration (the
Python variable leaks out of the loop and is read by the totals code at
line 233). -/
def runCityDays (env : Env) (city : String) (hotel : Hotel)
    (bt : Option TransportDoc) (bi : Option FlightDoc)
    (attrDocs : List AttrDoc) (eventDocs : List EventDoc)
    (dailyBudget : ℚ) :
    ℕ → ℕ → BuildState → List Activity → BuildState × List Activity
  | 0, _, st, lastActs => (st, lastActs)
  | fuel + 1, i, st, _ =>
    let pd := buildDayPlan env city hotel bt bi attrDocs eventDocs
      dailyBudget st.currentDayIndex st.usedActivityIds i
    let st1 : BuildState :=
      { st with
        allDays := st.allDays ++ [pd.1]
        currentDayIndex := st.currentDayIndex + 1
        usedActivityIds := pd.2 }
    runCityDays env city hotel bt bi attrDocs eventDocs dailyBudget
      fuel (i + 1) st1 pd.1.activities

/-- The inter-city flight block of the city loop (service lines
204-229): when the city is not the last one and a flight to the next
city exists, append one travel day with the cheapest such flight and
add its price to the flights total; when no flight exists, no travel
day at all is appended (there is no hub or synthetic fallback in the
service layer). -/
def addHopFlight (env : Env) (prefs : TravelerPrefs) (numCities : ℕ)
    (idx : ℕ) (city : String) (st : BuildState) : BuildState :=
  if idx + 1 < numCities then
    let nextCity := prefs.destination.getD (idx + 1) ""
    match cheapestFlight (env.flights city nextCity) with
    | none => st
    | some bestHop =>
      let hopSeg : FlightSegment :=
        { airline := bestHop.airline
          from_city := bestHop.fromCity
          to_city := bestHop.toCity
          price := bestHop.price
          duration_minutes := 0 }
      let plan : DayPlan :=
        { day_index := st.currentDayIndex
          city := city
          hotel := none
          activities := []
          transport_segments := []
          flight := some hopSeg
          notes := "Travel day from " ++ city ++ " → " ++ nextCity
          estimated_day_cost := 0 }
      { st with
        allDays := st.allDays ++ [plan]
        currentDayIndex := st.currentDayIndex + 1
        flightsTotal := st.flightsTotal + bestHop.price }
  else st

/-- The totals accumulation at the end of the city loop body (service
lines 231-237): hotel nights, the leaked last-day activity fees, the
transport heuristic, and the inbound flight price. -/
def addCityTotals (hotel : Hotel) (cityDays : ℕ)
    (bestTransport : Option TransportDoc) (bestInbound : Option FlightDoc)
    (lastActs : List Activity) (st : BuildState) : BuildState :=
  { st with
    hotelTotal := st.hotelTotal + hotel.price_per_night * (cityDays : ℚ)
    activitiesTotal :=
      st.activitiesTotal + (lastActs.map (fun a => a.entry_fee)).sum
    transportTotal := st.transportTotal +
      (match bestTransport with
       | some b => b.price * (cityDays : ℚ) * 3
       | none => 0)
    flightsTotal := st.flightsTotal +
      (match bestInbound with
       | some f => f.price
       | none => 0) }

/-- The body of the city loop of `build_itinerary` (service lines
118-237) for one `(idx, city)` pair: retrieval, hotel selection (a city
with no hotel is skipped — `continue`), the day loop, the inter-city
travel day, and the totals accumulation (which reads the leaked loop
variable `acts` through `r.2`, i.e. only the last day's picks). -/
def processCity (env : Env) (prefs : TravelerPrefs)
    (hotelBudget dailyBudget : ℚ) (T numCities : ℕ)
    (st : BuildState) (p : ℕ × String) : BuildState :=
  let idx := p.1
  let city := p.2
  let cityDays := max 1 (T / numCities + if idx < T % numCities then 1 else 0)
  let hotelDocs := env.hotels city (hotelBudget / (T : ℚ)) 8
  let attrDocs := env.attractions city prefs.interests 20
  let eventDocs := env.events city prefs.start_date prefs.end_date 10
  let transportDocs := env.transports city 5
  match pick_hotel hotelDocs cityDays hotelBudget with
  | none => st
  | some hotel =>
    let bestTransport := firstMinBy (fun t => t.price) transportDocs
    let prevCity := if idx = 0 then prefs.origin
      else prefs.destination.getD (idx - 1) ""
    let bestInbound := cheapestFlight (env.flights prevCity city)
    let r := runCityDays env city hotel bestTransport bestInbound
      attrDocs eventDocs dailyBudget cityDays 0 st []
    addCityTotals hotel cityDays bestTransport bestInbound r.2
      (addHopFlight env prefs numCities idx city r.1)

/-- The initial `BuildState` of `build_itinerary` (service lines
108-115). -/
def initState : BuildState :=
  { allDays := []
    currentDayIndex := 1
    usedActivityIds := []
    hotelTotal := 0
    activitiesTotal := 0
    transportTotal := 0
    flightsTotal := 0 }

/-- The whole city loop of `build_itinerary` (service lines 118-237):
fold `processCity` over the enumerated destination list starting from
the initial state. -/
def buildCities (env : Env) (prefs : TravelerPrefs)
    (hotelBudget dailyBudget : ℚ) (T numCities : ℕ) : BuildState :=
  prefs.destination.enum.foldl
    (processCity env prefs hotelBudget dailyBudget T numCities) initState

/-- The return-flight block of `build_itinerary` (service lines
239-262): if any flight from the last city back to the origin exists,
append one travel day with the cheapest one (without advancing the day
counter — it is dead afterwards) and add its price to the flights
total. -/
def addReturnFlight (env : Env) (prefs : TravelerPrefs)
    (st : BuildState) : BuildState :=
  let lastCity := prefs.destination.getLast?.getD ""
  match cheapestFlight (env.flights lastCity prefs.origin) with
  | none => st
  | some bestReturn =>
    let retSeg : FlightSegment :=
      { airline := bestReturn.airline
        from_city := bestReturn.fromCity
        to_city := bestReturn.toCity
        price := bestReturn.price
        duration_minutes := 0 }
    let plan : DayPlan :=
      { day_index := st.currentDayIndex
        city := lastCity
        hotel := none
        activities := []
        transport_segments := []
        flight := some retSeg
        notes := "Return flight " ++ lastCity ++ " → " ++ prefs.origin
        estimated_day_cost := 0 }
    { st with
      allDays := st.allDays ++ [plan]
      flightsTotal := st.flightsTotal + bestReturn.price }

/-- The final state of a build: city loop then return flight. -/
def finalState (env : Env) (prefs : TravelerPrefs) : BuildState :=
  let T : ℕ := (prefs.end_date - prefs.start_date + 1).toNat
  let costs := split_budget prefs.budget_total
  addReturnFlight env prefs
    (buildCities env prefs costs.hotel_total
      (costs.activities_total / (T : ℚ)) T prefs.destination.length)

/-- `build_itinerary` (app/services/itinerary_service.py lines 93-302):
validation, budget split, the city loop, the return flight, the cost
summary and the narrative block (exceptions of the narrative generator
are caught and replaced with fallback text). -/
def build_itinerary (env : Env) (prefs : TravelerPrefs) :
    Except String Itinerary :=
  if prefs.end_date - prefs.start_date + 1 ≤ 0 then
    .error "Invalid date range"
  else if prefs.destination.length = 0 then
    .error "No destinations provided"
  else
    let T : ℕ := (prefs.end_date - prefs.start_date + 1).toNat
    let stR := finalState env prefs
    let totalCost := stR.hotelTotal + stR.activitiesTotal +
      stR.flightsTotal + stR.transportTotal
    let cost : TripCost :=
      { hotel_total := stR.hotelTotal
        activities_total := stR.activitiesTotal
        transport_total := stR.transportTotal
        flights_total := stR.flightsTotal
        total := totalCost }
    let dests := String.intercalate ", " prefs.destination
    let texts : String × List String × List String :=
      match env.narrative with
      | .ok n =>
        (n.summaryText.getD
           (toString T ++ "-day trip across " ++ dests ++ "."),
         n.highlights.getD [],
         [n.aiCommentary.getD "Generated via AI summarization."])
      | .error e =>
        (toString T ++ "-day trip covering " ++ dests ++ ".",
         ["AI summary unavailable — using fallback description."],
         ["AI summary generation failed: " ++ e])
    .ok
      { trip_id := "TRIP-" ++ env.tripUuid
        summary_text := texts.1
        highlights := texts.2.1
        days := stR.allDays
        cost := cost
        assumptions := texts.2.2 }

/- ==================================================================
Theorems.
================================================================== -/

/-- Rolling first-minimum over a list, started at `some b`: the result
exists, is `b` or a list element, and its key is minimal among both. -/
theorem minStep_go {α : Type} (f : α → ℚ) :
    ∀ (l : List α) (b : α),
      ∃ c, l.foldl (minStep f) (some b) = some c ∧ (c = b ∨ c ∈ l) ∧
        f c ≤ f b ∧ ∀ y ∈ l, f c ≤ f y := by
  intro l
  induction l with
  | nil =>
    intro b
    exact ⟨b, rfl, Or.inl rfl, le_refl _, fun y hy => absurd hy (List.not_mem_nil y)⟩
  | cons x xs ih =>
    intro b
    rw [List.foldl_cons]
    by_cases hlt : f x < f b
    · have hstep : minStep f (some b) x = some x := by simp [minStep, hlt]
      rw [hstep]
      obtain ⟨c, hc, hmem, hle, hall⟩ := ih x
      refine ⟨c, hc, ?_, le_trans hle (le_of_lt hlt), ?_⟩
      · rcases hmem with h | h
        · exact Or.inr (h ▸ List.mem_cons_self x xs)
        · exact Or.inr (List.mem_cons_of_mem x h)
      · intro y hy
        rcases List.mem_cons.mp hy with h | h
        · exact h ▸ hle
        · exact hall y h
    · have hstep : minStep f (some b) x = some b := by simp [minStep, hlt]
      rw [hstep]
      obtain ⟨c, hc, hmem, hle, hall⟩ := ih b
      refine ⟨c, hc, ?_, hle, ?_⟩
      · rcases hmem with h | h
        · exact Or.inl h
        · exact Or.inr (List.mem_cons_of_mem x h)
      · intro y hy
        rcases List.mem_cons.mp hy with h | h
        · exact h ▸ le_trans hle (not_lt.mp hlt)
        · exact hall y h

/-- On a non-empty list, `firstMinBy` returns a member whose key is
minimal. -/
theorem firstMinBy_eq_some {α : Type} (f : α → ℚ) (l : List α)
    (h : l ≠ []) :
    ∃ c, firstMinBy f l = some c ∧ c ∈ l ∧ ∀ y ∈ l, f c ≤ f y := by
  match l with
  | [] => exact absurd rfl h
  | x :: xs =>
    obtain ⟨c, hc, hmem, hle, hall⟩ := minStep_go f xs x
    refine ⟨c, ?_, ?_, ?_⟩
    · simpa [firstMinBy, minStep] using hc
    · rcases hmem with h | h
      · exact h ▸ List.mem_cons_self x xs
      · exact List.mem_cons_of_mem x h
    · intro y hy
      rcases List.mem_cons.mp hy with h | h
      · exact h ▸ hle
      · exact hall y h

/-- `firstMinBy` is `none` exactly on the empty list (Python
`min(..., default=None)`). -/
theorem firstMinBy_eq_none {α : Type} (f : α → ℚ) (l : List α) :
    firstMinBy f l = none ↔ l = [] := by
  constructor
  · intro h
    match l with
    | [] => rfl
    | x :: xs =>
      obtain ⟨c, hc, _, _⟩ := firstMinBy_eq_some f (x :: xs) (by simp)
      rw [h] at hc
      exact absurd hc (by simp)
  · intro h
    subst h
    rfl

/-- The value returned by `firstMinBy` is a member of the list with a
minimal key. -/
theorem firstMinBy_spec {α : Type} {f : α → ℚ} {l : List α} {c : α}
    (h : firstMinBy f l = some c) : c ∈ l ∧ ∀ y ∈ l, f c ≤ f y := by
  match l with
  | [] => exact absurd h (by simp [firstMinBy])
  | x :: xs =>
    obtain ⟨d, hd, hmem, hall⟩ := firstMinBy_eq_some f (x :: xs) (by simp)
    rw [h] at hd
    obtain rfl : c = d := by injection hd
    exact ⟨hmem, hall⟩

/-- C8: the budget allocator splits the (floored) total 60/25/15, each
part rounded to two decimals, the total echoing the floored input
(exactly, for two-decimal inputs); any non-positive input is replaced by
the fixed floor 1000, so `allocate 0` behaves as `allocate 1000`, and
`allocate 1200` yields 720/300/180 with total 1200. -/
theorem claim_C8 (b : ℚ) :
    split_budget 1200 =
      { hotel_total := 720, activities_total := 300, transport_total := 180,
        flights_total := 0, total := 1200 } ∧
    split_budget 0 = split_budget 1000 ∧
    (b ≤ 0 → split_budget b = split_budget 1000) ∧
    (0 < b →
      split_budget b =
        { hotel_total := round2 (b * (6/10))
          activities_total := round2 (b * (25/100))
          transport_total := round2 (b * (15/100))
          flights_total := 0
          total := round2 b }) ∧
    (0 < b → TwoDec b → (split_budget b).total = b) := by
  have hpos : ∀ q : ℚ, 0 < q →
      split_budget q =
        { hotel_total := round2 (q * (6/10))
          activities_total := round2 (q * (25/100))
          transport_total := round2 (q * (15/100))
          flights_total := 0
          total := round2 q } := by
    intro q hq
    have hcond : ¬(q = 0 ∨ q ≤ 0) := by
      rintro (h0 | hle)
      · exact absurd h0 (ne_of_gt hq)
      · exact absurd hle (not_le.mpr hq)
    simp only [split_budget]
    rw [if_neg hcond]
  refine ⟨by with_unfolding_all decide, by with_unfolding_all decide, ?_, hpos b, ?_⟩
  · intro h
    simp only [split_budget]
    rw [if_pos (Or.inr h), if_neg (by norm_num)]
  · intro hb h2
    rw [hpos b hb]
    exact h2

/-- Witness for C8 at the concrete inputs 1200 (exact split) and 450
(positive two-decimal budget whose total field echoes the input). -/
theorem claim_C8_witness :
    split_budget 1200 =
      { hotel_total := 720, activities_total := 300, transport_total := 180,
        flights_total := 0, total := 1200 } ∧
    (split_budget 450).total = 450 :=
  ⟨(claim_C8 450).1,
   (claim_C8 450).2.2.2.2 (by norm_num) (by with_unfolding_all decide)⟩

/-- Unfolding of `pick_hotel` on a non-empty candidate list. -/
theorem pick_hotel_eq (hotels : List HotelDoc) (nights : ℕ)
    (hotel_budget : ℚ) (hne : hotels ≠ []) :
    pick_hotel hotels nights hotel_budget =
      match (sortHotels hotels).find?
          (fun h => h.price * (nights : ℚ) ≤ hotel_budget) with
      | some h => some (mkHotel h)
      | none =>
        match firstMinBy (fun h => h.price) (sortHotels hotels) with
        | some cheapest => some (mkHotel cheapest)
        | none => none := by
  simp only [pick_hotel]
  rw [if_neg hne]

/-- A non-empty candidate list stays non-empty after the rating/price
sort. -/
theorem sortHotels_ne_nil {hotels : List HotelDoc} (hne : hotels ≠ []) :
    sortHotels hotels ≠ [] := by
  intro hnil
  apply hne
  have hperm := List.perm_insertionSort hotelSortLE hotels
  rw [sortHotels] at hnil
  rw [hnil] at hperm
  exact (List.Perm.nil_eq hperm).symm

/-- C6: hotel selection returns `none` exactly on an empty candidate
list; otherwise, after the stable sort by descending rating then
ascending price, it returns the first candidate whose
`price_per_night * nights` fits the lodging sub-budget, and if none
fits, a globally cheapest candidate. -/
theorem claim_C6 (hotels : List HotelDoc) (nights : ℕ) (hotel_budget : ℚ) :
    (pick_hotel hotels nights hotel_budget = none ↔ hotels = []) ∧
    (∀ d, (sortHotels hotels).find?
        (fun h => h.price * (nights : ℚ) ≤ hotel_budget) = some d →
      pick_hotel hotels nights hotel_budget = some (mkHotel d)) ∧
    ((sortHotels hotels).find?
        (fun h => h.price * (nights : ℚ) ≤ hotel_budget) = none →
      hotels ≠ [] →
      ∃ d, d ∈ hotels ∧ (∀ e ∈ hotels, d.price ≤ e.price) ∧
        pick_hotel hotels nights hotel_budget = some (mkHotel d)) := by
  refine ⟨⟨?_, ?_⟩, ?_, ?_⟩
  · intro h
    by_contra hne
    rw [pick_hotel_eq hotels nights hotel_budget hne] at h
    cases hfind : (sortHotels hotels).find?
        (fun hd => hd.price * (nights : ℚ) ≤ hotel_budget) with
    | some d => rw [hfind] at h; exact absurd h (by simp)
    | none =>
      rw [hfind] at h
      obtain ⟨c, hc, _, _⟩ := firstMinBy_eq_some (fun hd => hd.price)
        (sortHotels hotels) (sortHotels_ne_nil hne)
      rw [hc] at h
      exact absurd h (by simp)
  · intro h
    subst h
    rfl
  · intro d hfind
    have hne : hotels ≠ [] := by
      intro h
      subst h
      simp [sortHotels, List.insertionSort] at hfind
    rw [pick_hotel_eq hotels nights hotel_budget hne, hfind]
  · intro hfind hne
    rw [pick_hotel_eq hotels nights hotel_budget hne, hfind]
    obtain ⟨c, hc, hmem, hall⟩ := firstMinBy_eq_some (fun hd => hd.price)
      (sortHotels hotels) (sortHotels_ne_nil hne)
    rw [hc]
    refine ⟨c, ?_, ?_, rfl⟩
    · exact (List.mem_insertionSort hotelSortLE).mp hmem
    · intro e he
      exact hall e ((List.mem_insertionSort hotelSortLE).mpr he)

/-- A candidate that fits the budget, for the C6 witness. -/
def hotelDocFit : HotelDoc :=
  { id := "1", hotelId := some "H1", hotelName := "Alpha", cityName := "A",
    price := 10, rating := 5, source := "mongo" }

/-- A higher-rated but expensive candidate, for the C6 witness. -/
def hotelDocExp : HotelDoc :=
  { id := "2", hotelId := none, hotelName := "Beta", cityName := "A",
    price := 60, rating := 5, source := "mongo" }

/-- A cheaper low-rated candidate, for the C6 witness. -/
def hotelDocCheap : HotelDoc :=
  { id := "3", hotelId := some "H3", hotelName := "Gamma", cityName := "A",
    price := 50, rating := 3, source := "mongo" }

/-- Witness for C6: with budget 100 and 2 nights the single fitting
candidate is picked; with budget 0 no candidate fits and the picked
hotel exists (the cheapest fallback). -/
theorem claim_C6_witness :
    pick_hotel [hotelDocFit] 2 100 = some (mkHotel hotelDocFit) ∧
    (pick_hotel [hotelDocExp, hotelDocCheap] 1 0).isSome = true := by
  constructor
  · exact (claim_C6 [hotelDocFit] 2 100).2.1 hotelDocFit
      (by with_unfolding_all decide)
  · obtain ⟨d, _, _, hp⟩ := (claim_C6 [hotelDocExp, hotelDocCheap] 1 0).2.2
      (by with_unfolding_all decide) (by simp)
    rw [hp]
    rfl

/-- Invariants of the greedy scan of `pick_unique_activities`: given
consistent accumulators, the final picks stay within budget, within the
slot count, have pairwise distinct identifiers and categories, are all
recorded in the returned used-set (which extends the input one), and
extend the accumulator only with identifiers that were not yet used. -/
theorem pickLoop_spec (budget : ℚ) (slots : ℕ) :
    ∀ (pool : List PoolDoc) (picked : List Activity) (total : ℚ)
      (cats used : List String),
      total = (picked.map Activity.entry_fee).sum →
      total ≤ budget →
      picked.length < slots →
      (∀ a ∈ picked, a.id ∈ used) →
      (picked.map Activity.id).Nodup →
      (∀ a ∈ picked, a.category ∈ cats) →
      (picked.map Activity.category).Nodup →
      ((pickLoop budget slots pool picked total cats used).1.map
        Activity.entry_fee).sum ≤ budget ∧
      (pickLoop budget slots pool picked total cats used).1.length ≤ slots ∧
      (∀ a ∈ (pickLoop budget slots pool picked total cats used).1,
        a.id ∈ (pickLoop budget slots pool picked total cats used).2) ∧
      ((pickLoop budget slots pool picked total cats used).1.map
        Activity.id).Nodup ∧
      ((pickLoop budget slots pool picked total cats used).1.map
        Activity.category).Nodup ∧
      (∀ x ∈ used, x ∈ (pickLoop budget slots pool picked total cats used).2) ∧
      ∃ pre, (pickLoop budget slots pool picked total cats used).1 =
          picked ++ pre ∧ ∀ a ∈ pre, a.id ∉ used := by
  intro pool
  induction pool with
  | nil =>
    intro picked total cats used htot hle hlen hids hnodup hcats hcatnodup
    simp only [pickLoop]
    refine ⟨by rw [← htot]; exact hle, le_of_lt hlen, hids, hnodup,
      hcatnodup, fun x hx => hx, [], by simp, by simp⟩
  | cons d rest ih =>
    intro picked total cats used htot hle hlen hids hnodup hcats hcatnodup
    by_cases hid : d.docId ∈ used
    · simp only [pickLoop, if_pos hid]
      exact ih picked total cats used htot hle hlen hids hnodup hcats hcatnodup
    · by_cases hskip : d.category ∈ cats ∨ total + d.fee > budget
      · simp only [pickLoop, if_neg hid, if_pos hskip]
        exact ih picked total cats used htot hle hlen hids hnodup hcats
          hcatnodup
      · push_neg at hskip
        obtain ⟨hcat, hbud⟩ := hskip
        have hskip2 : ¬(d.category ∈ cats ∨ total + d.fee > budget) := by
          push_neg
          exact ⟨hcat, hbud⟩
        have hidmk : (mkActivity d).id = d.docId := rfl
        have hcatmk : (mkActivity d).category = d.category := rfl
        have hfeemk : (mkActivity d).entry_fee = d.fee := rfl
        have hsum1 : ((picked ++ [mkActivity d]).map Activity.entry_fee).sum =
            total + d.fee := by
          rw [List.map_append, List.sum_append, ← htot]
          simp [hfeemk]
        have hids1 : ∀ a ∈ picked ++ [mkActivity d], a.id ∈ d.docId :: used := by
          intro a ha
          rcases List.mem_append.mp ha with h | h
          · exact List.mem_cons_of_mem _ (hids a h)
          · simp only [List.mem_singleton] at h
            subst h
            rw [hidmk]
            exact List.mem_cons_self _ _
        have hnodup1 : ((picked ++ [mkActivity d]).map Activity.id).Nodup := by
          rw [List.map_append, List.nodup_append]
          refine ⟨hnodup, by simp, ?_⟩
          intro x hx
          simp only [List.map_cons, List.map_nil, List.mem_singleton, hidmk]
          obtain ⟨a, ha, rfl⟩ := List.mem_map.mp hx
          intro hcontra
          exact hid (hcontra ▸ hids a ha)
        have hcats1 : ∀ a ∈ picked ++ [mkActivity d],
            a.category ∈ d.category :: cats := by
          intro a ha
          rcases List.mem_append.mp ha with h | h
          · exact List.mem_cons_of_mem _ (hcats a h)
          · simp only [List.mem_singleton] at h
            subst h
            rw [hcatmk]
            exact List.mem_cons_self _ _
        have hcatnodup1 : ((picked ++ [mkActivity d]).map
            Activity.category).Nodup := by
          rw [List.map_append, List.nodup_append]
          refine ⟨hcatnodup, by simp, ?_⟩
          intro x hx
          simp only [List.map_cons, List.map_nil, List.mem_singleton, hcatmk]
          obtain ⟨a, ha, rfl⟩ := List.mem_map.mp hx
          intro hcontra
          exact hcat (hcontra ▸ hcats a ha)
        by_cases hstop : slots ≤ (picked ++ [mkActivity d]).length
        · simp only [pickLoop, if_neg hid, if_neg hskip2, if_pos hstop]
          refine ⟨by rw [hsum1]; exact hbud, ?_, hids1, hnodup1,
            hcatnodup1, fun x hx => List.mem_cons_of_mem _ hx,
            [mkActivity d], rfl, ?_⟩
          · simp only [List.length_append, List.length_singleton]
            omega
          · intro a ha
            simp only [List.mem_singleton] at ha
            subst ha
            rw [hidmk]
            exact hid
        · simp only [pickLoop, if_neg hid, if_neg hskip2, if_neg hstop]
          push_neg at hstop
          have H := ih (picked ++ [mkActivity d]) (total + d.fee)
            (d.category :: cats) (d.docId :: used) hsum1.symm hbud hstop
            hids1 hnodup1 hcats1 hcatnodup1
          obtain ⟨h1, h2, h3, h4, h5, h6, pre, hpre, hprenew⟩ := H
          refine ⟨h1, h2, h3, h4, h5,
            fun x hx => h6 x (List.mem_cons_of_mem _ hx),
            mkActivity d :: pre, ?_, ?_⟩
          · rw [hpre, List.append_assoc]
            rfl
          · intro a ha
            rcases List.mem_cons.mp ha with h | h
            · subst h
              rw [hidmk]
              exact hid
            · intro hmem
              exact hprenew a h (List.mem_cons_of_mem _ hmem)

/-- Facts about one `pick_unique_activities` call with a non-negative
daily cap and a positive slot count: fees within the cap, at most
`slots` picks, pairwise distinct identifiers and categories, no pick
already used, all picks recorded in the returned used-set, which
extends the given one. -/
theorem pick_unique_spec (shuffle : ℕ → List PoolDoc → List PoolDoc)
    (attrs : List AttrDoc) (evs : List EventDoc) (c : ℚ) (day : ℕ)
    (U : List String) (slots : ℕ) (hc : 0 ≤ c) (hs : 0 < slots) :
    ((pick_unique_activities shuffle attrs evs c day U slots).1.map
      Activity.entry_fee).sum ≤ c ∧
    (pick_unique_activities shuffle attrs evs c day U slots).1.length ≤ slots ∧
    ((pick_unique_activities shuffle attrs evs c day U slots).1.map
      Activity.id).Nodup ∧
    ((pick_unique_activities shuffle attrs evs c day U slots).1.map
      Activity.category).Nodup ∧
    (∀ a ∈ (pick_unique_activities shuffle attrs evs c day U slots).1,
      a.id ∉ U) ∧
    (∀ a ∈ (pick_unique_activities shuffle attrs evs c day U slots).1,
      a.id ∈ (pick_unique_activities shuffle attrs evs c day U slots).2) ∧
    (∀ x ∈ U, x ∈ (pick_unique_activities shuffle attrs evs c day U slots).2)
    := by
  by_cases hpool : attrs.map PoolDoc.attr ++ evs.map PoolDoc.event = []
  · simp only [pick_unique_activities, if_pos hpool]
    exact ⟨by simpa using hc, Nat.zero_le _, List.nodup_nil, List.nodup_nil,
      by simp, by simp, fun x hx => hx⟩
  · simp only [pick_unique_activities, if_neg hpool]
    have H := pickLoop_spec c slots
      (shuffle day (attrs.map PoolDoc.attr ++ evs.map PoolDoc.event))
      [] 0 [] U (by simp) hc (by simpa using hs) (by simp) (by simp)
      (by simp) (by simp)
    obtain ⟨h1, h2, h3, h4, h5, h6, pre, hpre, hnew⟩ := H
    rw [List.nil_append] at hpre
    exact ⟨h1, h2, h4, h5, fun a ha => hnew a (hpre ▸ ha), h3, h6⟩

/-- No activity identifier is shared between the activity lists of two
day plans. -/
def ActsDisjoint (p q : DayPlan) : Prop :=
  ∀ a ∈ p.activities, ∀ b ∈ q.activities, a.id ≠ b.id

/-- A day plan carries the marker note the service writes on every city
stay day ("Auto-generated day in {city}.", line 198) and on no other
day plan: travel days get "Travel day from ..." (line 225) and the
return day gets "Return flight ..." (line 259). This field
distinguishes stay days from travel days in the returned itinerary. -/
def CityDayNote (p : DayPlan) : Prop :=
  p.notes = "Auto-generated day in " ++ p.city ++ "."

/-- An inter-city travel note is never a city-stay note. -/
theorem travelNote_ne (a b c : String) :
    "Travel day from " ++ a ++ " → " ++ b ≠
      "Auto-generated day in " ++ c ++ "." := by
  intro h
  have h2 := congrArg String.data h
  simp only [String.data_append] at h2
  simp only [List.cons_append, List.cons.injEq] at h2
  exact absurd h2.1 (by decide)

/-- A return-flight note is never a city-stay note. -/
theorem returnNote_ne (a b c : String) :
    "Return flight " ++ a ++ " → " ++ b ≠
      "Auto-generated day in " ++ c ++ "." := by
  intro h
  have h2 := congrArg String.data h
  simp only [String.data_append] at h2
  simp only [List.cons_append, List.cons.injEq] at h2
  exact absurd h2.1 (by decide)

/-- Every day plan built by the day loop carries the city-stay marker
note. -/
theorem buildDayPlan_note (env : Env) (city : String) (hotel : Hotel)
    (bt : Option TransportDoc) (bi : Option FlightDoc)
    (attrs : List AttrDoc) (evs : List EventDoc) (db : ℚ)
    (dayIndex : ℕ) (used : List String) (i : ℕ) :
    CityDayNote (buildDayPlan env city hotel bt bi attrs evs db dayIndex
      used i).1 := rfl

/-- The day index of a built day plan is the given one. -/
theorem buildDayPlan_dayIndex (env : Env) (city : String) (hotel : Hotel)
    (bt : Option TransportDoc) (bi : Option FlightDoc)
    (attrs : List AttrDoc) (evs : List EventDoc) (db : ℚ)
    (dayIndex : ℕ) (used : List String) (i : ℕ) :
    (buildDayPlan env city hotel bt bi attrs evs db dayIndex
      used i).1.day_index = dayIndex := rfl

/-- The city of a built day plan is the given one. -/
theorem buildDayPlan_city (env : Env) (city : String) (hotel : Hotel)
    (bt : Option TransportDoc) (bi : Option FlightDoc)
    (attrs : List AttrDoc) (evs : List EventDoc) (db : ℚ)
    (dayIndex : ℕ) (used : List String) (i : ℕ) :
    (buildDayPlan env city hotel bt bi attrs evs db dayIndex
      used i).1.city = city := rfl

/-- The hotel is attached exactly on loop iteration 0. -/
theorem buildDayPlan_hotel (env : Env) (city : String) (hotel : Hotel)
    (bt : Option TransportDoc) (bi : Option FlightDoc)
    (attrs : List AttrDoc) (evs : List EventDoc) (db : ℚ)
    (dayIndex : ℕ) (used : List String) (i : ℕ) :
    (buildDayPlan env city hotel bt bi attrs evs db dayIndex
      used i).1.hotel = if i = 0 then some hotel else none := rfl

/-- The estimated day cost is the rounded nightly rate exactly on loop
iteration 0. -/
theorem buildDayPlan_cost (env : Env) (city : String) (hotel : Hotel)
    (bt : Option TransportDoc) (bi : Option FlightDoc)
    (attrs : List AttrDoc) (evs : List EventDoc) (db : ℚ)
    (dayIndex : ℕ) (used : List String) (i : ℕ) :
    (buildDayPlan env city hotel bt bi attrs evs db dayIndex
      used i).1.estimated_day_cost =
      round2 (if i = 0 then hotel.price_per_night else 0) := rfl

/-- The activities of a built day plan are the picks of
`pick_unique_activities`. -/
theorem buildDayPlan_acts (env : Env) (city : String) (hotel : Hotel)
    (bt : Option TransportDoc) (bi : Option FlightDoc)
    (attrs : List AttrDoc) (evs : List EventDoc) (db : ℚ)
    (dayIndex : ℕ) (used : List String) (i : ℕ) :
    (buildDayPlan env city hotel bt bi attrs evs db dayIndex
      used i).1.activities =
      (pick_unique_activities env.shuffle attrs evs db dayIndex
        used 3).1 := rfl

/-- The used-set returned by `buildDayPlan` is the one returned by
`pick_unique_activities`. -/
theorem buildDayPlan_used (env : Env) (city : String) (hotel : Hotel)
    (bt : Option TransportDoc) (bi : Option FlightDoc)
    (attrs : List AttrDoc) (evs : List EventDoc) (db : ℚ)
    (dayIndex : ℕ) (used : List String) (i : ℕ) :
    (buildDayPlan env city hotel bt bi attrs evs db dayIndex
      used i).2 =
      (pick_unique_activities env.shuffle attrs evs db dayIndex
        used 3).2 := rfl

/-- Structure of the per-city day loop: it appends exactly `n` fresh
day plans with consecutive day indices starting at the current one,
attaches the hotel (and its rounded nightly rate as the day cost)
exactly on the iteration with loop counter 0, keeps each day within the
daily cap, threads the used-identifier set monotonically, and the new
plans use only fresh, pairwise disjoint activity identifiers that end
up recorded in the final used-set. -/
theorem runCityDays_spec (env : Env) (city : String) (hotel : Hotel)
    (bt : Option TransportDoc) (bi : Option FlightDoc)
    (attrs : List AttrDoc) (evs : List EventDoc) (c : ℚ) (hc : 0 ≤ c) :
    ∀ (n i : ℕ) (st : BuildState) (acts0 : List Activity),
      ∃ newPlans,
        (runCityDays env city hotel bt bi attrs evs c n i st acts0).1.allDays
          = st.allDays ++ newPlans ∧
        newPlans.length = n ∧
        (runCityDays env city hotel bt bi attrs evs c n i st
          acts0).1.currentDayIndex = st.currentDayIndex + n ∧
        newPlans.map DayPlan.day_index = List.range' st.currentDayIndex n ∧
        newPlans.map (fun p => (p.hotel, p.estimated_day_cost)) =
          (List.range n).map (fun k =>
            (if i + k = 0 then some hotel else none,
             round2 (if i + k = 0 then hotel.price_per_night else 0))) ∧
        (∀ p ∈ newPlans, p.city = city ∧ CityDayNote p ∧
          (p.activities.map Activity.entry_fee).sum ≤ c) ∧
        (∀ x ∈ st.usedActivityIds,
          x ∈ (runCityDays env city hotel bt bi attrs evs c n i st
            acts0).1.usedActivityIds) ∧
        (∀ p ∈ newPlans, ∀ a ∈ p.activities,
          a.id ∈ (runCityDays env city hotel bt bi attrs evs c n i st
            acts0).1.usedActivityIds ∧ a.id ∉ st.usedActivityIds) ∧
        List.Pairwise ActsDisjoint newPlans := by
  intro n
  induction n with
  | zero =>
    intro i st acts0
    refine ⟨[], by simp [runCityDays], rfl, by simp [runCityDays],
      rfl, rfl, by simp, by simp [runCityDays], by simp, List.Pairwise.nil⟩
  | succ n ih =>
    intro i st acts0
    have hpick := pick_unique_spec env.shuffle attrs evs c
      st.currentDayIndex st.usedActivityIds 3 hc (by norm_num)
    obtain ⟨hfee, _, _, _, hfresh, hrec, hmono⟩ := hpick
    simp only [runCityDays]
    obtain ⟨rest, hAll, hLen, hIdx, hDayMap, hHotMap, hCity, hMono2,
      hIds, hPw⟩ := ih (i + 1)
        { st with
          allDays := st.allDays ++ [(buildDayPlan env city hotel bt bi
            attrs evs c st.currentDayIndex st.usedActivityIds i).1]
          currentDayIndex := st.currentDayIndex + 1
          usedActivityIds := (buildDayPlan env city hotel bt bi attrs evs
            c st.currentDayIndex st.usedActivityIds i).2 }
        (buildDayPlan env city hotel bt bi attrs evs c st.currentDayIndex
          st.usedActivityIds i).1.activities
    refine ⟨(buildDayPlan env city hotel bt bi attrs evs c
      st.currentDayIndex st.usedActivityIds i).1 :: rest,
      ?_, ?_, ?_, ?_, ?_, ?_, ?_, ?_, ?_⟩
    · rw [hAll]
      simp [List.append_assoc]
    · simp [hLen]
    · rw [hIdx]
      show st.currentDayIndex + 1 + n = st.currentDayIndex + (n + 1)
      omega
    · rw [List.map_cons, hDayMap, buildDayPlan_dayIndex]
      show st.currentDayIndex :: List.range' (st.currentDayIndex + 1) n
        = List.range' st.currentDayIndex (n + 1)
      rw [List.range'_succ]
    · rw [List.map_cons, hHotMap, List.range_succ_eq_map, List.map_cons,
        List.map_map]
      congr 1
      apply List.map_congr_left
      intro k _
      simp only [Function.comp_apply, Nat.succ_eq_add_one]
      have h1 : i + 1 + k ≠ 0 := by omega
      have h2 : i + (k + 1) ≠ 0 := by omega
      rw [if_neg h1, if_neg h2, if_neg h1, if_neg h2]
    · intro p hp
      rcases List.mem_cons.mp hp with h | h
      · subst h
        refine ⟨buildDayPlan_city env city hotel bt bi attrs evs c
          st.currentDayIndex st.usedActivityIds i,
          buildDayPlan_note env city hotel bt bi attrs evs c
            st.currentDayIndex st.usedActivityIds i, ?_⟩
        rw [buildDayPlan_acts]
        exact hfee
      · exact hCity p h
    · intro x hx
      apply hMono2
      show x ∈ (buildDayPlan env city hotel bt bi attrs evs c
        st.currentDayIndex st.usedActivityIds i).2
      rw [buildDayPlan_used]
      exact hmono x hx
    · intro p hp a ha
      rcases List.mem_cons.mp hp with h | h
      · subst h
        rw [buildDayPlan_acts] at ha
        refine ⟨?_, hfresh a ha⟩
        apply hMono2
        show a.id ∈ (buildDayPlan env city hotel bt bi attrs evs c
          st.currentDayIndex st.usedActivityIds i).2
        rw [buildDayPlan_used]
        exact hrec a ha
      · obtain ⟨hin, hnotin⟩ := hIds p h a ha
        refine ⟨hin, fun hmem => hnotin ?_⟩
        show a.id ∈ (buildDayPlan env city hotel bt bi attrs evs c
          st.currentDayIndex st.usedActivityIds i).2
        rw [buildDayPlan_used]
        exact hmono a.id hmem
    · refine List.Pairwise.cons ?_ hPw
      intro q hq a ha b hb heq
      obtain ⟨_, hnotin⟩ := hIds q hq b hb
      rw [buildDayPlan_acts] at ha
      apply hnotin
      show b.id ∈ (buildDayPlan env city hotel bt bi attrs evs c
        st.currentDayIndex st.usedActivityIds i).2
      rw [buildDayPlan_used]
      exact heq ▸ hrec a ha


/-- The computable `Rat.floor` agrees with the floor of the order
structure. -/
theorem ratFloor_eq (q : ℚ) : q.floor = ⌊q⌋ :=
  (Rat.floor_def' q).trans Rat.floor_def.symm

/-- Rounding zero to two decimals gives zero. -/
theorem round2_zero : round2 0 = 0 := by
  with_unfolding_all decide

/-- Rounding preserves non-negativity. -/
theorem round2_nonneg (q : ℚ) (h : 0 ≤ q) : 0 ≤ round2 q := by
  unfold round2
  rw [ratFloor_eq]
  apply div_nonneg _ (by norm_num)
  have h2 : (0 : ℚ) ≤ q * 100 + 1/2 := by positivity
  exact_mod_cast Int.floor_nonneg.mpr h2

/-- The activities sub-budget produced by the splitter is never
negative (the floored total is always positive). -/
theorem split_budget_activities_nonneg (b : ℚ) :
    0 ≤ (split_budget b).activities_total := by
  unfold split_budget
  simp only
  apply round2_nonneg
  by_cases h : b = 0 ∨ b ≤ 0
  · rw [if_pos h]
    norm_num
  · rw [if_neg h]
    push_neg at h
    have hb : 0 < b := h.2
    positivity

/-- A maximal run of day plans produced by one iteration of the city
loop (`stay`, labelled by the city and the selected hotel) or a single
travel day (`travel`). -/
inductive Block where
  | stay (city : String) (h : Hotel) (plans : List DayPlan)
  | travel (p : DayPlan)

/-- The day plans of a block. -/
def Block.plans : Block → List DayPlan
  | .stay _ _ ps => ps
  | .travel p => [p]

/-- Concatenation of the day plans of a block list. -/
def flattenBlocks : List Block → List DayPlan
  | [] => []
  | b :: bs => b.plans ++ flattenBlocks bs

/-- Flattening distributes over append. -/
theorem flattenBlocks_append (bs1 bs2 : List Block) :
    flattenBlocks (bs1 ++ bs2) = flattenBlocks bs1 ++ flattenBlocks bs2 := by
  induction bs1 with
  | nil => simp [flattenBlocks]
  | cons b bs ih => simp [flattenBlocks, ih]

/-- Well-formedness of a block of the service-layer build: a travel day
carries no hotel, no cost, no activities and not the city-stay marker
note; a stay block starts with a day carrying the hotel selected by
`pick_hotel` from the retrieved candidates (with its rounded rate as
day cost) and continues with hotel-free zero-cost days, all labelled
with the stay's city and its marker note. The notes make the block
decomposition canonical: a day plan is a stay day exactly when
`CityDayNote` holds of it. -/
def StayOK (env : Env) (hb : ℚ) (T : ℕ) : Block → Prop
  | .travel p => p.hotel = none ∧ p.estimated_day_cost = 0 ∧
      p.activities = [] ∧ ¬ CityDayNote p
  | .stay city h plans =>
    (∃ nd, pick_hotel (env.hotels city (hb / (T : ℚ)) 8) nd hb = some h) ∧
    ∃ p0 rest, plans = p0 :: rest ∧ p0.city = city ∧ p0.hotel = some h ∧
      p0.estimated_day_cost = round2 h.price_per_night ∧ CityDayNote p0 ∧
      ∀ q ∈ rest, q.city = city ∧ q.hotel = none ∧
        q.estimated_day_cost = 0 ∧ CityDayNote q

/-- One build stage extends the state: it appends day plans with
consecutive day indices, advances the day counter accordingly, grows
the used-identifier set, uses only fresh pairwise-disjoint activity
identifiers (all recorded afterwards), and the appended plans decompose
into well-formed blocks. -/
def Extends (env : Env) (hb : ℚ) (T : ℕ) (stA stB : BuildState) : Prop :=
  ∃ ext,
    stB.allDays = stA.allDays ++ ext ∧
    stB.currentDayIndex = stA.currentDayIndex + ext.length ∧
    ext.map DayPlan.day_index = List.range' stA.currentDayIndex ext.length ∧
    (∀ x ∈ stA.usedActivityIds, x ∈ stB.usedActivityIds) ∧
    (∀ q ∈ ext, ∀ a ∈ q.activities, a.id ∈ stB.usedActivityIds ∧
      a.id ∉ stA.usedActivityIds) ∧
    List.Pairwise ActsDisjoint ext ∧
    ∃ bs, ext = flattenBlocks bs ∧ ∀ b ∈ bs, StayOK env hb T b

/-- Extension is reflexive. -/
theorem extends_refl (env : Env) (hb : ℚ) (T : ℕ) (st : BuildState) :
    Extends env hb T st st :=
  ⟨[], by simp, by simp, by simp, fun x hx => hx, by simp,
    List.Pairwise.nil, [], rfl, by simp⟩

/-- A stage that changes neither the day list, the day counter nor the
used-set extends the state. -/
theorem extends_of_untouched (env : Env) (hb : ℚ) (T : ℕ)
    (stA stB : BuildState) (h1 : stB.allDays = stA.allDays)
    (h2 : stB.currentDayIndex = stA.currentDayIndex)
    (h3 : stB.usedActivityIds = stA.usedActivityIds) :
    Extends env hb T stA stB :=
  ⟨[], by rw [h1, List.append_nil], by rw [h2]; simp, by simp,
    fun x hx => h3 ▸ hx, by simp, List.Pairwise.nil, [], rfl, by simp⟩

/-- Concatenation of half-open ranges. -/
theorem range'_append_custom (s m n : ℕ) :
    List.range' s m ++ List.range' (s + m) n = List.range' s (m + n) := by
  have h := List.range'_append s m n 1
  rw [Nat.one_mul] at h
  rw [Nat.add_comm n m] at h
  exact h

/-- Extension is transitive. -/
theorem extends_trans {env : Env} {hb : ℚ} {T : ℕ}
    {stA stB stC : BuildState} (hAB : Extends env hb T stA stB)
    (hBC : Extends env hb T stB stC) : Extends env hb T stA stC := by
  obtain ⟨e1, a1, i1, d1, m1, f1, p1, bs1, hbs1, ok1⟩ := hAB
  obtain ⟨e2, a2, i2, d2, m2, f2, p2, bs2, hbs2, ok2⟩ := hBC
  refine ⟨e1 ++ e2, ?_, ?_, ?_, ?_, ?_, ?_, bs1 ++ bs2, ?_, ?_⟩
  · rw [a2, a1, List.append_assoc]
  · rw [i2, i1, List.length_append]
    omega
  · rw [List.map_append, d1, d2, i1, List.length_append]
    exact range'_append_custom stA.currentDayIndex e1.length e2.length
  · intro x hx
    exact m2 x (m1 x hx)
  · intro q hq a ha
    rcases List.mem_append.mp hq with h | h
    · obtain ⟨hin, hout⟩ := f1 q h a ha
      exact ⟨m2 a.id hin, hout⟩
    · obtain ⟨hin, hout⟩ := f2 q h a ha
      exact ⟨hin, fun hmem => hout (m1 a.id hmem)⟩
  · rw [List.pairwise_append]
    refine ⟨p1, p2, ?_⟩
    intro p hp q hq a ha b hb
    obtain ⟨hin, _⟩ := f1 p hp a ha
    obtain ⟨_, hout⟩ := f2 q hq b hb
    intro heq
    exact hout (heq ▸ hin)
  · rw [hbs1, hbs2, flattenBlocks_append]
  · intro b hbmem
    rcases List.mem_append.mp hbmem with h | h
    · exact ok1 b h
    · exact ok2 b h

/-- From the hotel/cost map of the day loop started at iteration 0:
the first plan carries the hotel with its rounded rate, the others
carry neither. -/
theorem plans_shape (newPlans : List DayPlan) (hotel : Hotel) (m : ℕ)
    (hLen : newPlans.length = m + 1)
    (hMap : newPlans.map (fun p => (p.hotel, p.estimated_day_cost)) =
      (List.range (m + 1)).map (fun k =>
        (if k = 0 then some hotel else none,
         round2 (if k = 0 then hotel.price_per_night else 0)))) :
    ∃ p0 rest, newPlans = p0 :: rest ∧ p0.hotel = some hotel ∧
      p0.estimated_day_cost = round2 hotel.price_per_night ∧
      ∀ q ∈ rest, q.hotel = none ∧ q.estimated_day_cost = round2 0 := by
  match newPlans, hLen with
  | p0 :: rest, hLen =>
    rw [List.map_cons, List.range_succ_eq_map, List.map_cons,
      List.map_map] at hMap
    rw [List.cons.injEq] at hMap
    obtain ⟨hhead, htail⟩ := hMap
    rw [Prod.mk.injEq] at hhead
    obtain ⟨hh1, hh2⟩ := hhead
    refine ⟨p0, rest, rfl, by simpa using hh1, by simpa using hh2, ?_⟩
    intro q hq
    have hmem : (q.hotel, q.estimated_day_cost) ∈
        rest.map (fun p => (p.hotel, p.estimated_day_cost)) :=
      List.mem_map_of_mem _ hq
    rw [htail] at hmem
    obtain ⟨k, _, heq⟩ := List.mem_map.mp hmem
    simp only [Function.comp_apply, Nat.succ_ne_zero, if_neg,
      reduceIte] at heq
    rw [Prod.mk.injEq] at heq
    exact ⟨heq.1.symm, heq.2.symm⟩

/-- The hotel returned by `pick_hotel` has the nightly rate of one of
the candidate dicts. -/
theorem pick_hotel_price_mem (hotels : List HotelDoc) (nights : ℕ)
    (hb : ℚ) (h : Hotel)
    (hpick : pick_hotel hotels nights hb = some h) :
    ∃ d ∈ hotels, h.price_per_night = d.price := by
  have hne : hotels ≠ [] := by
    intro hnil
    subst hnil
    exact absurd hpick (by simp [pick_hotel])
  rw [pick_hotel_eq hotels nights hb hne] at hpick
  cases hfind : (sortHotels hotels).find?
      (fun hd => hd.price * (nights : ℚ) ≤ hb) with
  | some d =>
    rw [hfind] at hpick
    simp only [Option.some.injEq] at hpick
    refine ⟨d, ?_, ?_⟩
    · exact (List.mem_insertionSort hotelSortLE).mp
        (List.mem_of_find?_eq_some hfind)
    · rw [← hpick]
      rfl
  | none =>
    rw [hfind] at hpick
    obtain ⟨c, hc, hmem, _⟩ := firstMinBy_eq_some (fun hd => hd.price)
      (sortHotels hotels) (sortHotels_ne_nil hne)
    rw [hc] at hpick
    simp only [Option.some.injEq] at hpick
    refine ⟨c, (List.mem_insertionSort hotelSortLE).mp hmem, ?_⟩
    rw [← hpick]
    rfl

/-- The day loop, run from iteration 0 for a positive number of days
with the selected hotel, extends the state by one well-formed stay
block. -/
theorem runCityDays_extends (env : Env) (city : String) (hotel : Hotel)
    (bt : Option TransportDoc) (bi : Option FlightDoc)
    (attrs : List AttrDoc) (evs : List EventDoc) (db hb : ℚ) (T : ℕ)
    (hc : 0 ≤ db) (cityDays : ℕ) (hcd : cityDays ≠ 0) (st : BuildState)
    (hpick : pick_hotel (env.hotels city (hb / (T : ℚ)) 8) cityDays hb =
      some hotel) :
    Extends env hb T st
      (runCityDays env city hotel bt bi attrs evs db cityDays 0 st []).1
    := by
  obtain ⟨newPlans, hAll, hLen, hIdx, hDayMap, hHotMap, hCity, hMono,
    hIds, hPw⟩ := runCityDays_spec env city hotel bt bi attrs evs db hc
      cityDays 0 st []
  obtain ⟨m, rfl⟩ : ∃ m, cityDays = m + 1 :=
    ⟨cityDays - 1, by omega⟩
  obtain ⟨p0, rest, hsplit, hh0, hc0, hrest⟩ := plans_shape newPlans hotel
    m hLen (by simpa using hHotMap)
  refine ⟨newPlans, hAll, by rw [hIdx, hLen], by rw [hLen]; exact hDayMap,
    hMono, hIds, hPw, [Block.stay city hotel newPlans],
    by simp [flattenBlocks, Block.plans], ?_⟩
  intro b hbmem
  simp only [List.mem_singleton] at hbmem
  subst hbmem
  refine ⟨⟨m + 1, hpick⟩, p0, rest, hsplit, ?_, hh0, hc0, ?_, ?_⟩
  · exact (hCity p0 (hsplit ▸ List.mem_cons_self p0 rest)).1
  · exact (hCity p0 (hsplit ▸ List.mem_cons_self p0 rest)).2.1
  · intro q hq
    obtain ⟨hqh, hqc⟩ := hrest q hq
    refine ⟨(hCity q (hsplit ▸ List.mem_cons_of_mem p0 hq)).1, hqh, ?_,
      (hCity q (hsplit ▸ List.mem_cons_of_mem p0 hq)).2.1⟩
    rw [hqc, round2_zero]

/-- The inter-city travel-day stage extends the state (by nothing, or
by one travel block). -/
theorem addHopFlight_extends (env : Env) (prefs : TravelerPrefs)
    (hb : ℚ) (T : ℕ) (nC idx : ℕ) (city : String) (st : BuildState) :
    Extends env hb T st (addHopFlight env prefs nC idx city st) := by
  by_cases hlast : idx + 1 < nC
  · simp only [addHopFlight, if_pos hlast]
    cases hflight : cheapestFlight
        (env.flights city (prefs.destination.getD (idx + 1) "")) with
    | none => exact extends_refl env hb T st
    | some bestHop =>
      refine ⟨_, rfl, rfl, by simp [List.range'], fun x hx => hx,
        ?_, List.pairwise_singleton _ _, [Block.travel _], rfl, ?_⟩
      · intro q hq a ha
        simp only [List.mem_singleton] at hq
        subst hq
        simp only [List.not_mem_nil] at ha
      · intro b hbmem
        simp only [List.mem_singleton] at hbmem
        subst hbmem
        exact ⟨rfl, rfl, rfl, fun hcn => travelNote_ne _ _ _ hcn⟩
  · simp only [addHopFlight, if_neg hlast]
    exact extends_refl env hb T st

/-- The totals stage touches only the four running totals. -/
theorem addCityTotals_extends (env : Env) (hb : ℚ) (T : ℕ)
    (hotel : Hotel) (cityDays : ℕ) (bt : Option TransportDoc)
    (bi : Option FlightDoc) (lastActs : List Activity) (st : BuildState) :
    Extends env hb T st (addCityTotals hotel cityDays bt bi lastActs st) :=
  extends_of_untouched env hb T st _ rfl rfl rfl

/-- One city-loop iteration extends the state. -/
theorem processCity_extends (env : Env) (prefs : TravelerPrefs)
    (hb db : ℚ) (T nC : ℕ) (hc : 0 ≤ db) (st : BuildState)
    (p : ℕ × String) :
    Extends env hb T st (processCity env prefs hb db T nC st p) := by
  rcases hpick : pick_hotel (env.hotels p.2 (hb / (T : ℚ)) 8)
      (max 1 (T / nC + if p.1 < T % nC then 1 else 0)) hb with _ | hotel
  · simp only [processCity, hpick]
    exact extends_refl env hb T st
  · simp only [processCity, hpick]
    have h1 := runCityDays_extends env p.2 hotel
      (firstMinBy (fun t => t.price) (env.transports p.2 5))
      (cheapestFlight (env.flights
        (if p.1 = 0 then prefs.origin else prefs.destination.getD (p.1 - 1) "")
        p.2))
      (env.attractions p.2 prefs.interests 20)
      (env.events p.2 prefs.start_date prefs.end_date 10)
      db hb T hc (max 1 (T / nC + if p.1 < T % nC then 1 else 0))
      (by omega) st hpick
    exact extends_trans h1
      (extends_trans (addHopFlight_extends env prefs hb T nC p.1 p.2 _)
        (addCityTotals_extends env hb T hotel _ _ _ _ _))

/-- Folding extending stages over a list extends the state. -/
theorem foldl_extends (env : Env) (hb : ℚ) (T : ℕ)
    (f : BuildState → ℕ × String → BuildState)
    (hf : ∀ st a, Extends env hb T st (f st a)) :
    ∀ (l : List (ℕ × String)) (st : BuildState),
      Extends env hb T st (l.foldl f st) := by
  intro l
  induction l with
  | nil => intro st; exact extends_refl env hb T st
  | cons a l ih =>
    intro st
    exact extends_trans (hf st a) (ih (f st a))

/-- The return-flight stage appends nothing or one travel day indexed
with the current day counter. -/
theorem addReturnFlight_spec (env : Env) (prefs : TravelerPrefs)
    (hb0 : ℚ) (T0 : ℕ) (st : BuildState) :
    ∃ ext, (addReturnFlight env prefs st).allDays = st.allDays ++ ext ∧
      ext.map DayPlan.day_index =
        List.range' st.currentDayIndex ext.length ∧
      List.Pairwise ActsDisjoint ext ∧
      (∀ q ∈ ext, q.hotel = none ∧ q.estimated_day_cost = 0 ∧
        q.activities = []) ∧
      ∃ bs2, ext = flattenBlocks bs2 ∧
        ∀ b ∈ bs2, StayOK env hb0 T0 b := by
  simp only [addReturnFlight]
  cases hflight : cheapestFlight
      (env.flights (prefs.destination.getLast?.getD "") prefs.origin) with
  | none =>
    exact ⟨[], by simp, by simp, List.Pairwise.nil, by simp, [], rfl,
      by simp⟩
  | some bestReturn =>
    refine ⟨_, rfl, by simp [List.range'],
      List.pairwise_singleton _ _, ?_, [Block.travel _], rfl, ?_⟩
    · intro q hq
      simp only [List.mem_singleton] at hq
      subst hq
      exact ⟨rfl, rfl, rfl⟩
    · intro b hbmem
      simp only [List.mem_singleton] at hbmem
      subst hbmem
      exact ⟨rfl, rfl, rfl, fun hcn => returnNote_ne _ _ _ hcn⟩

/-- Combined facts about the state after the city loop and the return
flight: the day indices are exactly `1..N`, the day plans are pairwise
disjoint on activity identifiers, and they decompose into well-formed
blocks. -/
theorem buildReturn_spec (env : Env) (prefs : TravelerPrefs)
    (hb db : ℚ) (T nC : ℕ) (hdb : 0 ≤ db) :
    ((addReturnFlight env prefs
        (buildCities env prefs hb db T nC)).allDays.map DayPlan.day_index =
      List.range' 1 (addReturnFlight env prefs
        (buildCities env prefs hb db T nC)).allDays.length) ∧
    List.Pairwise ActsDisjoint (addReturnFlight env prefs
      (buildCities env prefs hb db T nC)).allDays ∧
    ∃ bs, (addReturnFlight env prefs
        (buildCities env prefs hb db T nC)).allDays = flattenBlocks bs ∧
      ∀ b ∈ bs, StayOK env hb T b := by
  obtain ⟨ext, hAll, hIdx, hMap, hMono, hIds, hPw, bs, hbs, hOk⟩ :=
    foldl_extends env hb T (processCity env prefs hb db T nC)
      (fun st a => processCity_extends env prefs hb db T nC hdb st a)
      prefs.destination.enum initState
  obtain ⟨ext2, hAll2, hMap2, hPw2, hTravel, bs2, hbs2, hOk2⟩ :=
    addReturnFlight_spec env prefs hb T
      (prefs.destination.enum.foldl (processCity env prefs hb db T nC)
        initState)
  have hbc : buildCities env prefs hb db T nC =
      prefs.destination.enum.foldl (processCity env prefs hb db T nC)
        initState := rfl
  rw [hbc]
  rw [show initState.allDays = ([] : List DayPlan) from rfl,
    List.nil_append] at hAll
  rw [show initState.currentDayIndex = 1 from rfl] at hIdx hMap
  rw [hIdx] at hMap2
  refine ⟨?_, ?_, bs ++ bs2, ?_, ?_⟩
  · rw [hAll2, hAll, List.map_append, hMap, hMap2, List.length_append,
      range'_append_custom]
  · rw [hAll2, hAll, List.pairwise_append]
    refine ⟨hPw, hPw2, ?_⟩
    intro p hp q hq a _ b hbmem
    rw [(hTravel q hq).2.2] at hbmem
    exact absurd hbmem (List.not_mem_nil b)
  · rw [hAll2, hAll, hbs, hbs2, flattenBlocks_append]
  · intro b hbm
    rcases List.mem_append.mp hbm with hmem | hmem
    · exact hOk b hmem
    · exact hOk2 b hmem

/-- A successful build returns exactly the day plans of the final
state. -/
theorem build_ok_days (env : Env) (prefs : TravelerPrefs) (it : Itinerary)
    (h : build_itinerary env prefs = Except.ok it) :
    it.days = (finalState env prefs).allDays := by
  simp only [build_itinerary] at h
  split at h
  · exact absurd h (by simp)
  · split at h
    · exact absurd h (by simp)
    · rw [Except.ok.injEq] at h
      rw [← h]

/-- The daily activity cap of a build is never negative. -/
theorem dailyBudget_nonneg (prefs : TravelerPrefs) :
    0 ≤ (split_budget prefs.budget_total).activities_total /
      (((prefs.end_date - prefs.start_date + 1).toNat : ℕ) : ℚ) :=
  div_nonneg (split_budget_activities_nonneg _) (by positivity)

/-- C4: for every valid input, the day_index values of the returned
itinerary form exactly the sequence 1..N — strictly increasing by 1
from 1, no gaps, no repeats — across the whole itinerary including
travel days. -/
theorem claim_C4 (env : Env) (prefs : TravelerPrefs) (it : Itinerary)
    (h : build_itinerary env prefs = Except.ok it) :
    it.days.map DayPlan.day_index = List.range' 1 it.days.length := by
  rw [build_ok_days env prefs it h]
  exact (buildReturn_spec env prefs
    (split_budget prefs.budget_total).hotel_total _
    ((prefs.end_date - prefs.start_date + 1).toNat)
    prefs.destination.length (dailyBudget_nonneg prefs)).1

/-- C5: in every returned itinerary no activity identifier appears in
the activity list of more than one DayPlan — global uniqueness across
the whole trip, maintained by the running used-identifier set threaded
through every per-day selection call. -/
theorem claim_C5 (env : Env) (prefs : TravelerPrefs) (it : Itinerary)
    (h : build_itinerary env prefs = Except.ok it) :
    List.Pairwise ActsDisjoint it.days := by
  rw [build_ok_days env prefs it h]
  exact (buildReturn_spec env prefs
    (split_budget prefs.budget_total).hotel_total _
    ((prefs.end_date - prefs.start_date + 1).toNat)
    prefs.destination.length (dailyBudget_nonneg prefs)).2.1

/-- Hotel placement inside a block: a travel day has no hotel and is
not marked as a city-stay day; a stay consists entirely of days of the
stay's city carrying its marker note, starts with a day carrying the
hotel selected by `pick_hotel` from the retrieved candidates, and every
other day of the stay has none. Since exactly the stay days carry the
marker note, a hotel-bearing day can only be the head of a stay block
and the decomposition cannot hide hotel-free stay days in travel
blocks. -/
def HotelPlacementOK (env : Env) (hb : ℚ) (T : ℕ) : Block → Prop
  | .travel p => p.hotel = none ∧ ¬ CityDayNote p
  | .stay city h plans =>
    (∃ nd, pick_hotel (env.hotels city (hb / (T : ℚ)) 8) nd hb = some h) ∧
    ∃ p0 rest, plans = p0 :: rest ∧ p0.hotel = some h ∧
      (∀ q ∈ plans, q.city = city ∧ CityDayNote q) ∧
      ∀ q ∈ rest, q.hotel = none

/-- C9: in every returned itinerary, the first DayPlan of each city
stay carries the selected hotel and every other DayPlan of the same
stay has no hotel — for every city stay, not only the one starting on
global day 1. The decomposition into stays and travel days is the
code's own: stay days are exactly the days carrying the
"Auto-generated day in {city}." note, travel days carry a different
note and no hotel. -/
theorem claim_C9 (env : Env) (prefs : TravelerPrefs) (it : Itinerary)
    (h : build_itinerary env prefs = Except.ok it) :
    ∃ bs, it.days = flattenBlocks bs ∧
      ∀ b ∈ bs, HotelPlacementOK env
        (split_budget prefs.budget_total).hotel_total
        ((prefs.end_date - prefs.start_date + 1).toNat) b := by
  rw [build_ok_days env prefs it h]
  obtain ⟨bs, hflat, hok⟩ := (buildReturn_spec env prefs
    (split_budget prefs.budget_total).hotel_total _
    ((prefs.end_date - prefs.start_date + 1).toNat)
    prefs.destination.length (dailyBudget_nonneg prefs)).2.2
  refine ⟨bs, hflat, ?_⟩
  intro b hbm
  have hst := hok b hbm
  cases b with
  | travel p => exact ⟨hst.1, hst.2.2.2⟩
  | stay city hh plans =>
    obtain ⟨hprov, p0, rest, hsplit, hcity0, hh0, _, hnote0, hrest⟩ := hst
    refine ⟨hprov, p0, rest, hsplit, hh0, ?_,
      fun q hq => (hrest q hq).2.1⟩
    intro q hq
    rw [hsplit] at hq
    rcases List.mem_cons.mp hq with h | h
    · subst h
      exact ⟨hcity0, hnote0⟩
    · exact ⟨(hrest q h).1, (hrest q h).2.2.2⟩

/-- Day-cost placement inside a block: a travel day costs 0 and is not
marked as a city-stay day; a stay consists entirely of days of the
stay's city carrying its marker note, starts with a day that carries
the selected hotel and whose estimated cost is exactly that hotel's
nightly rate, and every other day of the stay has no hotel and costs 0
— so activity fees and transport prices never enter any estimated day
cost, and the head cost cannot be faked to 0 since it must equal the
attached hotel's rate. -/
def DayCostOK (env : Env) (hb : ℚ) (T : ℕ) : Block → Prop
  | .travel p => p.estimated_day_cost = 0 ∧ ¬ CityDayNote p
  | .stay city h plans =>
    (∃ nd, pick_hotel (env.hotels city (hb / (T : ℚ)) 8) nd hb = some h) ∧
    ∃ p0 rest, plans = p0 :: rest ∧ p0.hotel = some h ∧
      p0.estimated_day_cost = h.price_per_night ∧
      (∀ q ∈ plans, q.city = city ∧ CityDayNote q) ∧
      ∀ q ∈ rest, q.hotel = none ∧ q.estimated_day_cost = 0

/-- C10: in every returned itinerary (with the repository's two-decimal
hotel rates), each city stay's first DayPlan carries the selected hotel
and has estimated_day_cost equal to that hotel's price_per_night, every
other stay day has no hotel and costs 0, and every travel DayPlan costs
0 — activity entry fees and transport segment prices are never
included. Stay days are identified by the code's own
"Auto-generated day in {city}." note, which no travel day carries. -/
theorem claim_C10 (env : Env) (prefs : TravelerPrefs) (it : Itinerary)
    (h2dec : ∀ city mp k, ∀ d ∈ env.hotels city mp k, TwoDec d.price)
    (h : build_itinerary env prefs = Except.ok it) :
    ∃ bs, it.days = flattenBlocks bs ∧
      ∀ b ∈ bs, DayCostOK env
        (split_budget prefs.budget_total).hotel_total
        ((prefs.end_date - prefs.start_date + 1).toNat) b := by
  rw [build_ok_days env prefs it h]
  obtain ⟨bs, hflat, hok⟩ := (buildReturn_spec env prefs
    (split_budget prefs.budget_total).hotel_total _
    ((prefs.end_date - prefs.start_date + 1).toNat)
    prefs.destination.length (dailyBudget_nonneg prefs)).2.2
  refine ⟨bs, hflat, ?_⟩
  intro b hbm
  have hst := hok b hbm
  cases b with
  | travel p => exact ⟨hst.2.1, hst.2.2.2⟩
  | stay city hh plans =>
    obtain ⟨hprov, p0, rest, hsplit, hcity0, hh0, hc0, hnote0, hrest⟩ := hst
    obtain ⟨nd, hpick⟩ := hprov
    obtain ⟨d, hd, hdp⟩ := pick_hotel_price_mem _ nd _ hh hpick
    have h2 : round2 hh.price_per_night = hh.price_per_night := by
      rw [hdp]
      exact h2dec city _ 8 d hd
    refine ⟨⟨nd, hpick⟩, p0, rest, hsplit, hh0, ?_, ?_,
      fun q hq => ⟨(hrest q hq).2.1, (hrest q hq).2.2.1⟩⟩
    · rw [hc0, h2]
    · intro q hq
      rw [hsplit] at hq
      rcases List.mem_cons.mp hq with h | h
      · subst h
        exact ⟨hcity0, hnote0⟩
      · exact ⟨(hrest q h).1, (hrest q h).2.2.2⟩

/-- C7: every activity-selection call with non-negative per-day cap c,
positive slot count s and used-set U picks activities whose fees sum to
at most c, with at most one activity per category, at most s picks, and
no identifier already in U; consequently a city allocated d days
accumulates at most d * c in activity fees across its day plans. -/
theorem claim_C7 (shuffle : ℕ → List PoolDoc → List PoolDoc)
    (attrs : List AttrDoc) (evs : List EventDoc) (c : ℚ) (day : ℕ)
    (U : List String) (slots : ℕ) (env : Env) (city : String)
    (hotel : Hotel) (bt : Option TransportDoc) (bi : Option FlightDoc)
    (d i : ℕ) (st : BuildState) (acts0 : List Activity)
    (hc : 0 ≤ c) (hs : 0 < slots) :
    ((pick_unique_activities shuffle attrs evs c day U slots).1.map
      Activity.entry_fee).sum ≤ c ∧
    ((pick_unique_activities shuffle attrs evs c day U slots).1.map
      Activity.category).Nodup ∧
    (pick_unique_activities shuffle attrs evs c day U slots).1.length
      ≤ slots ∧
    ((pick_unique_activities shuffle attrs evs c day U slots).1.map
      Activity.id).Disjoint U ∧
    (((runCityDays env city hotel bt bi attrs evs c d i st
        acts0).1.allDays.drop st.allDays.length).map
      (fun p => (p.activities.map Activity.entry_fee).sum)).sum
      ≤ (d : ℚ) * c := by
  obtain ⟨hsum, hlen, _, hcats, hfresh, _, _⟩ :=
    pick_unique_spec shuffle attrs evs c day U slots hc hs
  refine ⟨hsum, hcats, hlen, ?_, ?_⟩
  · intro x hx hxU
    obtain ⟨a, ha, rfl⟩ := List.mem_map.mp hx
    exact hfresh a ha hxU
  · obtain ⟨newPlans, hAll, hLen, _, _, _, hCity, _, _, _⟩ :=
      runCityDays_spec env city hotel bt bi attrs evs c hc d i st acts0
    rw [hAll, List.drop_left]
    have hle := List.sum_le_card_nsmul
      (newPlans.map (fun p => (p.activities.map Activity.entry_fee).sum))
      c ?_
    · rw [List.length_map, hLen] at hle
      simpa [nsmul_eq_mul] using hle
    · intro x hx
      obtain ⟨p, hp, rfl⟩ := List.mem_map.mp hx
      exact (hCity p hp).2.2

/-- An attraction candidate used by the C7 witness. -/
def attrDocW1 : AttrDoc :=
  { id := "a1", name := "Fort", cityName := "A", category := some "fort",
    entry_fee := 30, rating := 5, source := "mongo" }

/-- A second attraction candidate used by the C7 witness. -/
def attrDocW2 : AttrDoc :=
  { id := "a2", name := "Museum", cityName := "A",
    category := some "museum", entry_fee := 20, rating := 4,
    source := "mongo" }

/-- An environment with one city carrying two attractions and nothing
else, used by the C7 witness. -/
def envW7 : Env :=
  { hotels := fun _ _ _ => []
    attractions := fun city _ _ => if city = "A" then [attrDocW1, attrDocW2] else []
    events := fun _ _ _ _ => []
    transports := fun _ _ => []
    flights := fun _ _ => []
    shuffle := fun _ l => l
    narrative := Except.error "no ai"
    tripUuid := "W7" }

/-- A hotel value used by the C7 witness day loop. -/
def hotelW7 : Hotel :=
  { id := "h", name := "Inn", city := "A", price_per_night := 50,
    rating := 4, address := none, source := "mongo" }

/-- Witness for C7 at a concrete call: cap 100, slot count 3, used set
containing an unrelated identifier, and a 2-day city loop. -/
theorem claim_C7_witness :
    (((pick_unique_activities envW7.shuffle [attrDocW1, attrDocW2] []
      100 1 ["z"] 3).1.map Activity.entry_fee).sum ≤ 100) ∧
    ((((runCityDays envW7 "A" hotelW7 none none [attrDocW1, attrDocW2]
        [] 100 2 0 initState []).1.allDays.drop
        initState.allDays.length).map
      (fun p => (p.activities.map Activity.entry_fee).sum)).sum
      ≤ ((2 : ℕ) : ℚ) * 100) := by
  have H := claim_C7 envW7.shuffle [attrDocW1, attrDocW2] [] 100 1 ["z"]
    3 envW7 "A" hotelW7 none none 2 0 initState []
    (by norm_num) (by norm_num)
  exact ⟨H.1, H.2.2.2.2⟩

/-- Sum of all activity entry fees attached to a list of day plans. -/
def sumActivityFees (days : List DayPlan) : ℚ :=
  (days.map (fun p => (p.activities.map (fun a => a.entry_fee)).sum)).sum

/-- The hotel candidate of the C2 failing input. -/
def hotelDocC2 : HotelDoc :=
  { id := "h1", hotelId := some "H1", hotelName := "Grand", cityName := "A",
    price := 50, rating := 4, source := "mongo" }

/-- The single attraction of the C2 failing input (fee 10). -/
def attrDocC2 : AttrDoc :=
  { id := "x", name := "Museum", cityName := "A", category := some "museum",
    entry_fee := 10, rating := 5, source := "mongo" }

/-- The C2 failing environment: one city with one hotel and one paid
attraction, no events, no transports, no flights anywhere. A possible
shuffle of a one-element pool is its identity, so this environment is
realizable by the seeded Mersenne-twister shuffle of the source. -/
def envC2 : Env :=
  { hotels := fun c _ _ => if c = "A" then [hotelDocC2] else []
    attractions := fun c _ _ => if c = "A" then [attrDocC2] else []
    events := fun _ _ _ _ => []
    transports := fun _ _ => []
    flights := fun _ _ => []
    shuffle := fun _ l => l
    narrative := Except.error "no ai"
    tripUuid := "C2" }

/-- The C2 failing preferences: a single destination for two days with
budget 1000 (daily activity cap 125). -/
def prefsC2 : TravelerPrefs :=
  { origin := "O", destination := ["A"], start_date := 0, end_date := 1,
    budget_total := 1000, interests := ["history"],
    traveler_type := "solo" }

/-- C2 fails on the code: on the failing input, day 1 picks the fee-10
attraction and day 2 picks nothing, so the returned day plans carry
activities with fees summing to 10, while the reported
activities_total is 0 — the totals code (service line 233) reads the
loop variable `acts` leaked from the day loop, i.e. only the last
day's picks of each city, not all selections. The claim (totals equal
the sums over the selections contained in the day plans) requires both
components below to be equal; they are 0 and 10. -/
theorem claim_C2 :
    (build_itinerary envC2 prefsC2).toOption.map
      (fun it => (it.cost.activities_total, sumActivityFees it.days)) =
    some (0, 10) := by
  with_unfolding_all decide

/-- Both legs of a hub route have at least one available flight (the
loop conditions `if first_leg and second_leg` of retrievers.py). -/
def hubEligible (flights : String → String → List FlightDoc)
    (a b hub : String) : Bool :=
  !(flights a hub).isEmpty && !(flights hub b).isEmpty

/-- The hub scan picks the first hub with both legs available and
returns the two cheapest-selected segments; it returns nothing exactly
when no hub is eligible. -/
theorem hubScan_spec (flights : String → String → List FlightDoc)
    (a b : String) :
    ∀ hubs : List String,
      (∀ hub, hubs.find? (hubEligible flights a b) = some hub →
        ∃ f1 f2, cheapestFlight (flights a hub) = some f1 ∧
          cheapestFlight (flights hub b) = some f2 ∧
          hubScan flights a b hubs = [mkSeg f1, mkSeg f2]) ∧
      (hubs.find? (hubEligible flights a b) = none →
        hubScan flights a b hubs = []) := by
  intro hubs
  induction hubs with
  | nil => exact ⟨fun hub h => absurd h (by simp), fun _ => rfl⟩
  | cons hub0 rest ih =>
    by_cases helig : hubEligible flights a b hub0 = true
    · have hfind : (hub0 :: rest).find? (hubEligible flights a b) =
          some hub0 := List.find?_cons_of_pos _ helig
      have hne : flights a hub0 ≠ [] ∧ flights hub0 b ≠ [] := by
        simpa [hubEligible, List.isEmpty_iff] using helig
      obtain ⟨f1, hf1, _, _⟩ := firstMinBy_eq_some (fun f => f.price)
        (flights a hub0) hne.1
      obtain ⟨f2, hf2, _, _⟩ := firstMinBy_eq_some (fun f => f.price)
        (flights hub0 b) hne.2
      have hf1c : cheapestFlight (flights a hub0) = some f1 := hf1
      have hf2c : cheapestFlight (flights hub0 b) = some f2 := hf2
      refine ⟨?_, ?_⟩
      · intro hub hh
        rw [hfind, Option.some.injEq] at hh
        subst hh
        exact ⟨f1, f2, hf1c, hf2c, by simp only [hubScan, hf1c, hf2c]⟩
      · intro hnone
        rw [hfind] at hnone
        exact absurd hnone (by simp)
    · have hfind : (hub0 :: rest).find? (hubEligible flights a b) =
          rest.find? (hubEligible flights a b) :=
        List.find?_cons_of_neg _ helig
      have hcase : cheapestFlight (flights a hub0) = none ∨
          cheapestFlight (flights hub0 b) = none := by
        by_contra hcon
        push_neg at hcon
        apply helig
        have h1 : flights a hub0 ≠ [] := by
          intro hnil
          exact hcon.1 (by rw [hnil]; rfl)
        have h2 : flights hub0 b ≠ [] := by
          intro hnil
          exact hcon.2 (by rw [hnil]; rfl)
        simpa [hubEligible, List.isEmpty_iff] using ⟨h1, h2⟩
      have hred : hubScan flights a b (hub0 :: rest) =
          hubScan flights a b rest := by
        rcases hcase with h | h
        · cases h2 : cheapestFlight (flights hub0 b) with
          | none => simp only [hubScan, h, h2]
          | some f2 => simp only [hubScan, h, h2]
        · cases h1 : cheapestFlight (flights a hub0) with
          | none => simp only [hubScan, h1, h]
          | some f1 => simp only [hubScan, h1, h]
      refine ⟨?_, ?_⟩
      · intro hub hh
        rw [hfind] at hh
        obtain ⟨f1, f2, e1, e2, hrec⟩ := ih.1 hub hh
        exact ⟨f1, f2, e1, e2, by rw [hred]; exact hrec⟩
      · intro hnone
        rw [hfind] at hnone
        rw [hred]
        exact ih.2 hnone

/-- When the flight table is case-insensitive and no direct flight
exists, skipping hubs equal to an endpoint changes nothing: such a hub
can never have both legs available. -/
theorem hubScanSkip_eq (flights : String → String → List FlightDoc)
    (a b : String)
    (hci : ∀ x y, flights x y = flights x.toLower y.toLower)
    (hdirect : flights a b = []) :
    ∀ hubs : List String,
      hubScanSkip flights a b hubs = hubScan flights a b hubs := by
  intro hubs
  induction hubs with
  | nil => rfl
  | cons hub0 rest ih =>
    by_cases hskip : hub0.toLower = a.toLower ∨ hub0.toLower = b.toLower
    · have hemp : flights a hub0 = [] ∨ flights hub0 b = [] := by
        rcases hskip with h | h
        · right
          rw [hci hub0 b, h, ← hci a b]
          exact hdirect
        · left
          rw [hci a hub0, h, ← hci a b]
          exact hdirect
      have hred : hubScan flights a b (hub0 :: rest) =
          hubScan flights a b rest := by
        rcases hemp with h | h
        · have h1 : cheapestFlight (flights a hub0) = none := by
            rw [h]; rfl
          cases h2 : cheapestFlight (flights hub0 b) with
          | none => simp only [hubScan, h1, h2]
          | some f2 => simp only [hubScan, h1, h2]
        · have h2 : cheapestFlight (flights hub0 b) = none := by
            rw [h]; rfl
          cases h1 : cheapestFlight (flights a hub0) with
          | none => simp only [hubScan, h1, h2]
          | some f1 => simp only [hubScan, h1, h2]
      rw [hred, ← ih]
      simp only [hubScanSkip, if_pos hskip]
    · rw [show hubScanSkip flights a b (hub0 :: rest) =
          (match cheapestFlight (flights a hub0),
              cheapestFlight (flights hub0 b) with
            | some f1, some f2 => [mkSeg f1, mkSeg f2]
            | _, _ => hubScanSkip flights a b rest) from by
          simp only [hubScanSkip, if_neg hskip]]
      cases h1 : cheapestFlight (flights a hub0) with
      | some f1 =>
        cases h2 : cheapestFlight (flights hub0 b) with
        | some f2 => simp only [hubScan, h1, h2]
        | none =>
          simp only [hubScan, h1, h2]
          exact ih
      | none =>
        cases h2 : cheapestFlight (flights hub0 b) with
        | some f2 =>
          simp only [hubScan, h1, h2]
          exact ih
        | none =>
          simp only [hubScan, h1, h2]
          exact ih

/-- C1 (amended): the retriever-layer route planners
(entry/return and inter-city, app/rag/retrievers.py) always return a
non-empty segment list: the single cheapest direct flight if one
exists; otherwise the first hub of the fixed priority list with both
legs available yields the two cheapest-selected segments (for the
inter-city planner, under case-insensitive flight data, where the
endpoint-hub skip is a no-op); otherwise exactly one synthetic
fallback segment — "Fallback Route" 1800/420 for the international
planner, "Road Route" 300/360 for the domestic one. The service-layer
build has no such fallback (see the counterexample). -/
theorem claim_C1 (flights : String → String → List FlightDoc)
    (a b : String)
    (hci : ∀ x y, flights x y = flights x.toLower y.toLower) :
    plan_entry_route flights a b ≠ [] ∧
    plan_hop_route flights a b ≠ [] ∧
    (∀ f, cheapestFlight (flights a b) = some f →
      f ∈ flights a b ∧ (∀ g ∈ flights a b, f.price ≤ g.price) ∧
      plan_entry_route flights a b = [mkSeg f] ∧
      plan_hop_route flights a b = [mkSeg f]) ∧
    (flights a b = [] →
      (∀ hub, (["Dubai", "Doha", "Abu Dhabi"] : List String).find?
          (hubEligible flights a b) = some hub →
        ∃ f1 f2, cheapestFlight (flights a hub) = some f1 ∧
          cheapestFlight (flights hub b) = some f2 ∧
          plan_entry_route flights a b = [mkSeg f1, mkSeg f2]) ∧
      ((["Dubai", "Doha", "Abu Dhabi"] : List String).find?
          (hubEligible flights a b) = none →
        plan_entry_route flights a b =
          [{ airline := "Fallback Route", from_city := a, to_city := b,
             price := 1800, duration_minutes := 420 }]) ∧
      (∀ hub, (["Riyadh", "Jeddah", "Dammam"] : List String).find?
          (hubEligible flights a b) = some hub →
        ∃ f1 f2, cheapestFlight (flights a hub) = some f1 ∧
          cheapestFlight (flights hub b) = some f2 ∧
          plan_hop_route flights a b = [mkSeg f1, mkSeg f2]) ∧
      ((["Riyadh", "Jeddah", "Dammam"] : List String).find?
          (hubEligible flights a b) = none →
        plan_hop_route flights a b =
          [{ airline := "Road Route", from_city := a, to_city := b,
             price := 300, duration_minutes := 360 }])) := by
  refine ⟨?_, ?_, ?_, ?_⟩
  · cases hdir : cheapestFlight (flights a b) with
    | some f => simp [plan_entry_route, hdir]
    | none =>
      simp only [plan_entry_route, hdir]
      by_cases hseg : hubScan flights a b ["Dubai", "Doha", "Abu Dhabi"] = []
      · rw [if_pos hseg]
        simp
      · rw [if_neg hseg]
        exact hseg
  · cases hdir : cheapestFlight (flights a b) with
    | some f => simp [plan_hop_route, hdir]
    | none =>
      simp only [plan_hop_route, hdir]
      by_cases hseg : hubScanSkip flights a b ["Riyadh", "Jeddah", "Dammam"]
          = []
      · rw [if_pos hseg]
        simp
      · rw [if_neg hseg]
        exact hseg
  · intro f hdir
    obtain ⟨hmem, hmin⟩ := firstMinBy_spec hdir
    exact ⟨hmem, hmin, by simp [plan_entry_route, hdir],
      by simp [plan_hop_route, hdir]⟩
  · intro hdirect
    have hdir : cheapestFlight (flights a b) = none := by
      rw [hdirect]
      rfl
    have hskipeq := hubScanSkip_eq flights a b hci hdirect
      ["Riyadh", "Jeddah", "Dammam"]
    refine ⟨?_, ?_, ?_, ?_⟩
    · intro hub hh
      obtain ⟨f1, f2, e1, e2, hscan⟩ :=
        (hubScan_spec flights a b ["Dubai", "Doha", "Abu Dhabi"]).1 hub hh
      refine ⟨f1, f2, e1, e2, ?_⟩
      simp only [plan_entry_route, hdir, hscan]
      rw [if_neg (by simp)]
    · intro hh
      have hscan := (hubScan_spec flights a b
        ["Dubai", "Doha", "Abu Dhabi"]).2 hh
      simp only [plan_entry_route, hdir, hscan]
      simp
    · intro hub hh
      obtain ⟨f1, f2, e1, e2, hscan⟩ :=
        (hubScan_spec flights a b ["Riyadh", "Jeddah", "Dammam"]).1 hub hh
      refine ⟨f1, f2, e1, e2, ?_⟩
      simp only [plan_hop_route, hdir, hskipeq, hscan]
      rw [if_neg (by simp)]
    · intro hh
      have hscan := (hubScan_spec flights a b
        ["Riyadh", "Jeddah", "Dammam"]).2 hh
      simp only [plan_hop_route, hdir, hskipeq, hscan]
      simp

/-- Witness for C1 at the empty flight table (trivially
case-insensitive): both planners emit exactly the documented synthetic
fallback segments. -/
theorem claim_C1_witness :
    plan_entry_route (fun _ _ => []) "Paris" "Riyadh" =
      [{ airline := "Fallback Route", from_city := "Paris",
         to_city := "Riyadh", price := 1800, duration_minutes := 420 }] ∧
    plan_hop_route (fun _ _ => []) "Abha" "Tabuk" =
      [{ airline := "Road Route", from_city := "Abha", to_city := "Tabuk",
         price := 300, duration_minutes := 360 }] := by
  have H1 := (claim_C1 (fun _ _ => []) "Paris" "Riyadh"
    (fun _ _ => rfl)).2.2.2 rfl
  have H2 := (claim_C1 (fun _ _ => []) "Abha" "Tabuk"
    (fun _ _ => rfl)).2.2.2 rfl
  exact ⟨H1.2.1 rfl, H2.2.2.2 rfl⟩

/-- A hotel doc for city A, for the C1 counterexample. -/
def hotelDocC1A : HotelDoc :=
  { id := "hA", hotelId := none, hotelName := "HostA", cityName := "A",
    price := 40, rating := 3, source := "mongo" }

/-- A hotel doc for city B, for the C1 counterexample. -/
def hotelDocC1B : HotelDoc :=
  { id := "hB", hotelId := none, hotelName := "HostB", cityName := "B",
    price := 45, rating := 3, source := "mongo" }

/-- The C1 counterexample environment: two cities with hotels, and no
flight data at all anywhere. -/
def envC1 : Env :=
  { hotels := fun c _ _ =>
      if c = "A" then [hotelDocC1A] else if c = "B" then [hotelDocC1B]
      else []
    attractions := fun _ _ _ => []
    events := fun _ _ _ _ => []
    transports := fun _ _ => []
    flights := fun _ _ => []
    shuffle := fun _ l => l
    narrative := Except.error "no ai"
    tripUuid := "C1" }

/-- The C1 counterexample preferences: two destinations over two
days. -/
def prefsC1 : TravelerPrefs :=
  { origin := "O", destination := ["A", "B"], start_date := 0,
    end_date := 1, budget_total := 1000, interests := [],
    traveler_type := "solo" }

/-- C1 as stated is false for the service-layer build cited by the
claim: with two destinations and no available flights the returned
itinerary has two day plans and no flight segment anywhere — no travel
leg between the consecutive cities and no synthetic fallback segment is
ever created there (the hub/fallback routing exists only in the
retriever layer). -/
theorem claim_C1_counterexample :
    (build_itinerary envC1 prefsC1).toOption.map
      (fun it => (it.days.length,
        it.days.all (fun p => p.flight.isNone))) = some (2, true) := by
  with_unfolding_all decide

/- ------------------------------------------------------------------
Retrieval with failing backends, from app/rag/retrievers.py lines
23-100: `_safe_search_hotels` swallows similarity-backend errors, while
`_fallback_find` (through `get_collection_safe`, which re-raises
connection errors) lets document-store errors propagate. The hotel
category is modelled; the other four retrieve functions have the
identical shape.
------------------------------------------------------------------ -/

/-- A raw hotel document as stored in the backends, before the
normalization of `retrieve_hotels` (lines 89-100): `docId` models
`str(d.get("_id") or d.get("id"))` and `hasEmbedding` the
`"embedding" in d` test. -/
structure RawHotelDoc where
  docId : String
  hotelId : Option String
  hotelName : String
  cityName : String
  price : ℚ
  rating : ℚ
  hasEmbedding : Bool
deriving DecidableEq

/-- The normalization of `retrieve_hotels` (lines 89-100). -/
def normalizeHotelDoc (r : RawHotelDoc) : HotelDoc :=
  { id := r.docId
    hotelId := r.hotelId
    hotelName := r.hotelName
    cityName := r.cityName
    price := r.price
    rating := r.rating
    source := if r.hasEmbedding then "redis" else "mongo" }

/-- The two storage backends behind `retrieve_hotels`:
`searchHotels` models `search_hotels` (it may raise, or return `None`,
or a result list) and `mongoFindHotels` models
`_fallback_find("hotels", exact-city case-insensitive filter, k)`
(whose Mongo connection may raise). -/
structure HotelRetrievalEnv where
  searchHotels : String → ℚ → ℕ → Except String (Option (List RawHotelDoc))
  mongoFindHotels : String → ℕ → Except String (List RawHotelDoc)

/-- `_safe_search_hotels` (retrievers.py lines 46-51): similarity-
backend errors are caught and, like a `None` result, replaced by the
empty list (`search_hotels(...) or []`). -/
def safe_search_hotels (renv : HotelRetrievalEnv) (city : String)
    (maxPrice : ℚ) (k : ℕ) : List RawHotelDoc :=
  match renv.searchHotels city maxPrice k with
  | .error _ => []
  | .ok none => []
  | .ok (some docs) => docs

/-- `retrieve_hotels` (retrievers.py lines 85-100): use the similarity
results when non-empty, otherwise query the document store — whose
failure is NOT caught and propagates to the caller. -/
def retrieve_hotels (renv : HotelRetrievalEnv) (city : String)
    (maxPrice : ℚ) (k : ℕ) : Except String (List HotelDoc) :=
  match safe_search_hotels renv city maxPrice k with
  | [] =>
    (renv.mongoFindHotels city k).map (fun docs => docs.map normalizeHotelDoc)
  | d :: rest => .ok ((d :: rest).map normalizeHotelDoc)

/-- A retrieval environment with both backends down, for the C3
counterexample. -/
def badRetrievalEnv : HotelRetrievalEnv :=
  { searchHotels := fun _ _ _ => .error "redis connection refused"
    mongoFindHotels := fun _ _ => .error "mongo connection failed" }

/-- C3 as stated is false: when both the similarity backend and the
document-store fallback fail, the affected category does NOT yield an
empty candidate list — the document-store error propagates out of
`retrieve_hotels` (through the uncaught `_fallback_find`), so the
claimed result `Except.ok []` is not produced. -/
theorem claim_C3_counterexample :
    retrieve_hotels badRetrievalEnv "Jeddah" 100 8 =
      Except.error "mongo connection failed" := rfl

/-- C3 (amended): `build_itinerary` rejects exactly the invalid inputs
(end date before start date, or empty destination list), and that
rejection is independent of every backend (so it happens before any
retrieval can matter); for every valid input with non-raising
retrieval it returns an itinerary. A similarity-backend failure alone
is absorbed: the document-store fallback supplies the candidates. But
if the document store also fails, the error propagates to the caller
instead of yielding an empty candidate list. -/
theorem claim_C3 (env env2 : Env) (prefs : TravelerPrefs)
    (renv : HotelRetrievalEnv) (city : String) (mp : ℚ) (k : ℕ) :
    ((build_itinerary env prefs).isOk = true ↔
      (prefs.start_date ≤ prefs.end_date ∧ prefs.destination ≠ [])) ∧
    (¬(prefs.start_date ≤ prefs.end_date ∧ prefs.destination ≠ []) →
      build_itinerary env prefs = build_itinerary env2 prefs) ∧
    (∀ e, renv.searchHotels city mp k = Except.error e →
      retrieve_hotels renv city mp k =
        (renv.mongoFindHotels city k).map
          (fun docs => docs.map normalizeHotelDoc)) ∧
    (∀ e m, renv.searchHotels city mp k = Except.error e →
      renv.mongoFindHotels city k = Except.error m →
      retrieve_hotels renv city mp k = Except.error m) := by
  refine ⟨?_, ?_, ?_, ?_⟩
  · by_cases h1 : prefs.end_date - prefs.start_date + 1 ≤ 0
    · simp only [build_itinerary, if_pos h1]
      constructor
      · intro hh
        exact absurd hh (by simp [Except.isOk, Except.toBool])
      · intro hh
        exact absurd hh.1 (by omega)
    · by_cases h2 : prefs.destination.length = 0
      · simp only [build_itinerary, if_neg h1, if_pos h2]
        constructor
        · intro hh
          exact absurd hh (by simp [Except.isOk, Except.toBool])
        · intro hh
          exact absurd (List.length_eq_zero.mp h2) hh.2
      · simp only [build_itinerary, if_neg h1, if_neg h2]
        constructor
        · intro _
          refine ⟨by omega, ?_⟩
          intro hnil
          rw [hnil] at h2
          exact h2 rfl
        · intro _
          simp [Except.isOk, Except.toBool]
  · intro hinv
    by_cases h1 : prefs.end_date - prefs.start_date + 1 ≤ 0
    · simp only [build_itinerary, if_pos h1]
    · by_cases h2 : prefs.destination.length = 0
      · simp only [build_itinerary, if_neg h1, if_pos h2]
      · exfalso
        apply hinv
        refine ⟨by omega, ?_⟩
        intro hnil
        rw [hnil] at h2
        exact h2 rfl
  · intro e he
    simp only [retrieve_hotels, safe_search_hotels, he]
  · intro e m he hm
    simp only [retrieve_hotels, safe_search_hotels, he, hm]
    rfl

/-- A raw hotel document served by the document store, for the C3
witness. -/
def rawHotelW : RawHotelDoc :=
  { docId := "m1", hotelId := some "M1", hotelName := "Oasis",
    cityName := "Jeddah", price := 80, rating := 4,
    hasEmbedding := false }

/-- A retrieval environment whose similarity backend is down but whose
document store answers, for the C3 witness. -/
def fallbackRetrievalEnv : HotelRetrievalEnv :=
  { searchHotels := fun _ _ _ => .error "redis down"
    mongoFindHotels := fun _ _ => .ok [rawHotelW] }

/-- Preferences with an invalid date range, for the C3 witness. -/
def prefsInvalidW : TravelerPrefs :=
  { origin := "O", destination := ["A"], start_date := 5, end_date := 2,
    budget_total := 800, interests := [], traveler_type := "solo" }

/-- A second environment differing from `envC2`, for the C3 witness of
backend-independent rejection. -/
def envW3b : Env :=
  { hotels := fun _ _ _ => []
    attractions := fun _ _ _ => []
    events := fun _ _ _ _ => []
    transports := fun _ _ => []
    flights := fun _ _ => []
    shuffle := fun _ l => l
    narrative := Except.ok
      { summaryText := some "s", highlights := some [],
        aiCommentary := some "c" }
    tripUuid := "W3B" }

/-- Witness for C3: an invalid date range is rejected identically under
two different backends, and a similarity failure with a live document
store yields the normalized fallback candidates. -/
theorem claim_C3_witness :
    build_itinerary envC2 prefsInvalidW = build_itinerary envW3b prefsInvalidW ∧
    retrieve_hotels fallbackRetrievalEnv "Jeddah" 100 8 =
      Except.ok [normalizeHotelDoc rawHotelW] := by
  have H := claim_C3 envC2 envW3b prefsInvalidW fallbackRetrievalEnv
    "Jeddah" 100 8
  refine ⟨H.2.1 ?_, ?_⟩
  · rintro ⟨hle, _⟩
    simp only [prefsInvalidW] at hle
    norm_num at hle
  · rw [H.2.2.1 "redis down" rfl]
    rfl

/- ------------------------------------------------------------------
Concrete witness scenario for the whole-build claims: two cities, two
paid attractions and a transport option in the first, an event in the
second, and flights origin → A → B → origin.
------------------------------------------------------------------ -/

/-- Fallback itinerary value used to name the result of a successful
concrete build. -/
def dummyItinerary : Itinerary :=
  { trip_id := "", summary_text := "", highlights := [], days := [],
    cost := { hotel_total := 0, activities_total := 0,
              transport_total := 0, flights_total := 0, total := 0 },
    assumptions := [] }

/-- The hotel of city A in the witness scenario. -/
def hotelDocW45A : HotelDoc :=
  { id := "hA", hotelId := some "HA", hotelName := "AlphaInn",
    cityName := "A", price := 50, rating := 4, source := "mongo" }

/-- The hotel of city B in the witness scenario. -/
def hotelDocW45B : HotelDoc :=
  { id := "hB", hotelId := none, hotelName := "BetaInn", cityName := "B",
    price := 45, rating := 3, source := "mongo" }

/-- The first attraction of city A in the witness scenario. -/
def attrDocW45A1 : AttrDoc :=
  { id := "a1", name := "Fort", cityName := "A", category := some "fort",
    entry_fee := 10, rating := 5, source := "mongo" }

/-- The second attraction of city A in the witness scenario. -/
def attrDocW45A2 : AttrDoc :=
  { id := "a2", name := "Souq", cityName := "A",
    category := some "market", entry_fee := 15, rating := 4,
    source := "mongo" }

/-- The event of city B in the witness scenario. -/
def eventDocW45B : EventDoc :=
  { id := "e1", name := "Festival", cityName := "B",
    typ := some "festival", date := "2025-01-02", source := "mongo" }

/-- The origin → A flight of the witness scenario. -/
def flightOA : FlightDoc :=
  { id := "f1", airline := "Saudia", flight_number := "SV1",
    fromCity := "O", toCity := "A", price := 200, duration := 90,
    source := "mongo" }

/-- The A → B flight of the witness scenario. -/
def flightAB : FlightDoc :=
  { id := "f2", airline := "Flynas", flight_number := "XY2",
    fromCity := "A", toCity := "B", price := 120, duration := 60,
    source := "mongo" }

/-- The B → origin flight of the witness scenario. -/
def flightBO : FlightDoc :=
  { id := "f3", airline := "Saudia", flight_number := "SV3",
    fromCity := "B", toCity := "O", price := 210, duration := 95,
    source := "mongo" }

/-- The local transport option of city A in the witness scenario. -/
def transportW45A : TransportDoc :=
  { id := "t1", mode := "car", provider := "Careem", from_city := "A",
    to_city := "A", price := 5, source := "mongo" }

/-- The witness environment. -/
def envW45 : Env :=
  { hotels := fun c _ _ =>
      if c = "A" then [hotelDocW45A]
      else if c = "B" then [hotelDocW45B] else []
    attractions := fun c _ _ =>
      if c = "A" then [attrDocW45A1, attrDocW45A2] else []
    events := fun c _ _ _ => if c = "B" then [eventDocW45B] else []
    transports := fun c _ => if c = "A" then [transportW45A] else []
    flights := fun x y =>
      if x = "O" ∧ y = "A" then [flightOA]
      else if x = "A" ∧ y = "B" then [flightAB]
      else if x = "B" ∧ y = "O" then [flightBO] else []
    shuffle := fun _ l => l
    narrative := Except.error "no ai"
    tripUuid := "W45" }

/-- The witness preferences: origin O, cities A and B, three days,
budget 1200. -/
def prefsW45 : TravelerPrefs :=
  { origin := "O", destination := ["A", "B"], start_date := 0,
    end_date := 2, budget_total := 1200, interests := ["history"],
    traveler_type := "solo" }

/-- The itinerary built in the witness scenario (the build succeeds, as
the witnesses prove). -/
def itW45 : Itinerary :=
  (build_itinerary envW45 prefsW45).toOption.getD dummyItinerary

/-- Witness for C4: the concrete five-day build (two city stays, one
inter-city travel day, one return day) has day indices 1..5. -/
theorem claim_C4_witness :
    build_itinerary envW45 prefsW45 = Except.ok itW45 ∧
    itW45.days.map DayPlan.day_index = List.range' 1 itW45.days.length :=
  ⟨by with_unfolding_all rfl,
   claim_C4 envW45 prefsW45 itW45 (by with_unfolding_all rfl)⟩

/-- Witness for C5: in the concrete build no activity identifier is
shared between two day plans. -/
theorem claim_C5_witness :
    build_itinerary envW45 prefsW45 = Except.ok itW45 ∧
    List.Pairwise ActsDisjoint itW45.days :=
  ⟨by with_unfolding_all rfl,
   claim_C5 envW45 prefsW45 itW45 (by with_unfolding_all rfl)⟩

/-- Witness for C9: in the concrete build the hotel appears exactly on
the first day of each of the two city stays (global days 1 and 4) and
nowhere else. -/
theorem claim_C9_witness :
    build_itinerary envW45 prefsW45 = Except.ok itW45 ∧
    itW45.days.map (fun p => p.hotel.isSome) =
      [true, false, false, true, false] := by
  have H := claim_C9 envW45 prefsW45 itW45 (by with_unfolding_all rfl)
  exact ⟨by with_unfolding_all rfl, by with_unfolding_all decide⟩

/-- The witness environment serves only two-decimal hotel rates. -/
theorem envW45_twoDec :
    ∀ city mp k, ∀ d ∈ envW45.hotels city mp k, TwoDec d.price := by
  intro city mp k d hd
  simp only [envW45] at hd
  split_ifs at hd
  · simp only [List.mem_singleton] at hd
    subst hd
    with_unfolding_all decide
  · simp only [List.mem_singleton] at hd
    subst hd
    with_unfolding_all decide
  · exact absurd hd (List.not_mem_nil d)

/-- Witness for C10: in the concrete build the estimated day costs are
exactly the two nightly rates on the stay-opening days and 0
elsewhere. -/
theorem claim_C10_witness :
    TwoDec hotelDocW45A.price ∧ TwoDec hotelDocW45B.price ∧
    itW45.days.map (fun p => p.estimated_day_cost) = [50, 0, 0, 45, 0]
    := by
  have H := claim_C10 envW45 prefsW45 itW45 envW45_twoDec
    (by with_unfolding_all rfl)
  exact ⟨by with_unfolding_all decide, by with_unfolding_all decide,
    by with_unfolding_all decide⟩

end ZTraveler
